import Mathlib

set_option maxRecDepth 8000

/-!
Shallow embedding of the Sterling EDI interchange engine:
`src/x12_parser.py`, `src/edifact_parser.py`, `src/edi_validator.py` and
`src/edi_transformer.py`.

Python strings are modelled as `List Char` (`Str`); `str.strip` as `pyStrip`
over the ASCII whitespace characters; splitting on a one-character separator
as `splitOnChar` (the code only ever splits on the single-character
separators it detects or defaults to); the two `re` patterns the parsers use
are modelled by dedicated scanning functions that mirror the concrete
patterns (`ISA([^*~]{103})`, `UNA([^']{6})`, the anchored UNA removal, and
the release-character substitution).  `datetime.now().strftime(...)` values
are supplied as explicit string parameters.  Code that can raise a Python
exception is `Except`-valued; the raised `ValueError("Empty EDI content")`
is the `Except.error` payload.
-/

abbrev Str := List Char

/-- The apostrophe character `'`, EDIFACT's default segment terminator. -/
def quoteChar : Char := Char.ofNat 39

/-- The whitespace recognised by Python's `str.strip()` (characters for
which `str.isspace()` holds): tab through carriage return, space, the file
through unit separators U+001C-001F, NEL, NBSP, and the Unicode space
separators and line/paragraph separators. -/
def isPySpace (c : Char) : Bool :=
  (Char.ofNat 9 ≤ c && c ≤ Char.ofNat 13) || c = ' ' ||
  (Char.ofNat 28 ≤ c && c ≤ Char.ofNat 31) || c = Char.ofNat 133 || c = Char.ofNat 160 ||
  c = Char.ofNat 5760 || (Char.ofNat 8192 ≤ c && c ≤ Char.ofNat 8202) ||
  c = Char.ofNat 8232 || c = Char.ofNat 8233 || c = Char.ofNat 8239 ||
  c = Char.ofNat 8287 || c = Char.ofNat 12288

/-- Python `s.strip()`. -/
def pyStrip (l : Str) : Str :=
  ((l.dropWhile isPySpace).reverse.dropWhile isPySpace).reverse

/-- Python `s.split(c)` for a one-character separator `c`:
`"".split(c) = [""]`, separators at the ends produce empty chunks. -/
def splitOnChar (c : Char) : Str → List Str
  | [] => [[]]
  | x :: xs =>
    match splitOnChar c xs with
    | [] => [[]]
    | r :: rs => if x = c then [] :: r :: rs else (x :: r) :: rs

/-- Python `sub in s` for a single character. -/
def charIn (c : Char) (l : Str) : Bool := l.contains c

/-- First index at which `pat` occurs in the string, Python `s.find(pat)`
but `Option`-valued (`none` for Python's `-1`). -/
def findSubIdx (pat : Str) : Str → Option Nat
  | [] => if pat = [] then some 0 else none
  | c :: cs =>
    if pat.isPrefixOf (c :: cs) then some 0
    else (findSubIdx pat cs).map (· + 1)

/-- Digits of a decimal numeral, used to model Python `int(...)`. -/
def natFromDigits (l : List Char) : Nat :=
  l.foldl (fun a c => a * 10 + (c.toNat - 48)) 0

/-- Python `int(s)` on a decimal string: strip whitespace, optional sign,
then a non-empty run of digits; `none` models the raised `ValueError`.
(Underscored literals are not modelled; no input of this code base uses
them.) -/
def pyInt? (s : Str) : Option Int :=
  match pyStrip s with
  | [] => none
  | c :: cs =>
    let signDigits : Int × List Char :=
      if c = '-' then (-1, cs) else if c = '+' then (1, cs) else (1, c :: cs)
    if signDigits.2 ≠ [] && signDigits.2.all Char.isDigit then
      some (signDigits.1 * (natFromDigits signDigits.2 : Int))
    else none

/-! ### X12 data model (`src/x12_parser.py`) -/

/-- `X12Segment`: a tag and its (simple, string-valued) elements. -/
structure X12Segment where
  name : Str
  elements : List Str
deriving DecidableEq, Repr

/-- `X12Segment.get_element(position, default="")`: 1-indexed element access
with an explicit default for the out-of-range case. -/
def X12Segment.get_element (seg : X12Segment) (position : Nat) (default : Str) : Str :=
  if 1 ≤ position ∧ position ≤ seg.elements.length then
    seg.elements.getD (position - 1) default
  else default

/-- `X12Transaction`. -/
structure X12Transaction where
  transaction_type : Str
  control_number : Str
  segments : List X12Segment
deriving DecidableEq, Repr

/-- `X12Transaction.get_segments(name)`. -/
def X12Transaction.get_segments (t : X12Transaction) (segment_name : Str) : List X12Segment :=
  t.segments.filter (fun s => s.name = segment_name)

/-- `X12Transaction.get_segment(name, index=0)`: `None` when no match. -/
def X12Transaction.get_segment (t : X12Transaction) (segment_name : Str) (index : Nat) :
    Option X12Segment :=
  (t.get_segments segment_name).get? index

/-- The functional-group dictionaries built by `X12Parser.parse`
(keys `gs_segment`, `ge_segment`, `transactions`). -/
structure X12Group where
  gs_segment : Option X12Segment
  ge_segment : Option X12Segment
  transactions : List X12Transaction
deriving DecidableEq, Repr

/-- `X12Envelope`. -/
structure X12Envelope where
  isa_segment : Option X12Segment
  iea_segment : Option X12Segment
  functional_groups : List X12Group
  transactions : List X12Transaction
deriving DecidableEq, Repr

/-- `X12Envelope.get_sender_id()`: ISA element 6, stripped. -/
def X12Envelope.get_sender_id (e : X12Envelope) : Str :=
  match e.isa_segment with
  | some isa => pyStrip (isa.get_element 6 [])
  | none => []

/-- `X12Envelope.get_receiver_id()`: ISA element 8, stripped. -/
def X12Envelope.get_receiver_id (e : X12Envelope) : Str :=
  match e.isa_segment with
  | some isa => pyStrip (isa.get_element 8 [])
  | none => []

/-- The mutable configuration of an `X12Parser` instance.  The separators
are Python one-character strings, modelled as `Char`; the release character
keeps its full string type because the code tests its truthiness. -/
structure X12Parser where
  element_separator : Char
  segment_separator : Char
  release_character : Str
deriving DecidableEq, Repr

/-- `X12Parser()` with the constructor defaults. -/
def X12Parser.init : X12Parser := ⟨'*', '~', "?".data⟩

/-- The `re.search(r'ISA([^*~]{103})', ...)` of
`X12Parser.detect_separators`: leftmost position at which `ISA` is followed
by exactly 103 characters none of which is `*` or `~`; returns the captured
group. -/
def isaScan : Str → Option Str
  | [] => none
  | c :: cs =>
    if "ISA".data.isPrefixOf (c :: cs) then
      let grp := ((c :: cs).drop 3).take 103
      if grp.length = 103 && grp.all (fun ch => ch ≠ '*' && ch ≠ '~') then some grp
      else isaScan cs
    else isaScan cs

/-- `X12Parser.detect_separators`: returns the
`(element_separator, segment_separator)` pair together with the updated
instance (the release-character branch mutates `self`). -/
def X12Parser.detect_separators (p : X12Parser) (content : Str) : (Char × Char) × X12Parser :=
  match isaScan (content.take 200) with
  | some isa_data =>
    let element_sep := if 0 < isa_data.length then isa_data.getD 0 '*' else '*'
    -- segment_pos = content.find("ISA") + 3 + 103  (find cannot be -1 here,
    -- the scan above found a match; -1 would give position 105)
    let segment_pos : Nat :=
      match findSubIdx ("ISA".data) content with
      | some i => i + 3 + 103
      | none => 105
    let segment_sep := if segment_pos < content.length then content.getD segment_pos '~' else '~'
    -- if len(isa_data) > 104: ... (the captured group always has exactly
    -- 103 characters, so this branch never runs; embedded as written)
    let p1 :=
      if 104 < isa_data.length then
        let release_char := isa_data.getD 104 ' '
        -- `if release_char and release_char not in [...]`: a character from
        -- a string is always truthy
        if release_char ≠ element_sep ∧ release_char ≠ segment_sep then
          { p with release_character := [release_char] }
        else p
      else p
    ((element_sep, segment_sep), p1)
  | none => ((p.element_separator, p.segment_separator), p)

/-- Recursion core of `removeRelease`, structurally recursive on a fuel
counter so that it evaluates by kernel reduction; every recursive call
consumes at least one character and exactly one unit of fuel, so fuel
initialized to the text length is never exhausted. -/
def removeReleaseAux (rc : Str) (specials : List Char) : Nat → Str → Str
  | _, [] => []
  | 0, l => l
  | fuel + 1, c :: cs =>
    if rc ≠ [] && rc.isPrefixOf (c :: cs) then
      match List.drop rc.length (c :: cs) with
      | d :: ds =>
        if d ∈ specials then d :: removeReleaseAux rc specials fuel ds
        else c :: removeReleaseAux rc specials fuel cs
      | [] => c :: removeReleaseAux rc specials fuel cs
    else c :: removeReleaseAux rc specials fuel cs

/-- `re.sub(esc(rc) + "([" + specials + "])", r'\1', content)`: every
occurrence of the release string followed by one of the special characters
is replaced by that character, scanning left to right without overlap. -/
def removeRelease (rc : Str) (specials : List Char) (content : Str) : Str :=
  removeReleaseAux rc specials content.length content

/-- `X12Parser._remove_release_characters`: a no-op when the release
character is empty or the default `"?"`; otherwise the character class is
built from the element separator, the segment separator and the release
string's characters. -/
def X12Parser.remove_release_characters (p : X12Parser) (content : Str) : Str :=
  if p.release_character = [] || p.release_character = "?".data then content
  else
    removeRelease p.release_character
      ([p.element_separator, p.segment_separator] ++ p.release_character) content

/-- The per-chunk body of `X12Parser.parse`'s tokenization loop: strip,
skip empty chunks, first element is the tag, the rest are the elements. -/
def x12Tokenize (elemSep segSep : Char) (content : Str) : List X12Segment :=
  (splitOnChar segSep content).filterMap (fun seg_raw =>
    let s := pyStrip seg_raw
    if s = [] then none
    else
      match splitOnChar elemSep s with
      | [] => none   -- `if elements:` — split never returns an empty list
      | segment_name :: rest => some ⟨segment_name, rest⟩)

/-- The ISA/IEA discovery loop of `X12Parser.parse`. -/
def x12HeaderStep (e : X12Envelope) (seg : X12Segment) : X12Envelope :=
  if seg.name = "ISA".data then { e with isa_segment := some seg }
  else if seg.name = "IEA".data then { e with iea_segment := some seg }
  else e

/-- One step of the functional-group/transaction state machine of
`X12Parser.parse`: state is (envelope, current_group, current_transaction). -/
def x12EnvStep (st : X12Envelope × Option X12Group × Option X12Transaction)
    (seg : X12Segment) : X12Envelope × Option X12Group × Option X12Transaction :=
  let env := st.1
  let curG := st.2.1
  let curT := st.2.2
  if seg.name = "GS".data then
    (env, some ⟨some seg, none, []⟩, curT)
  else if seg.name = "GE".data then
    match curG with
    | some g =>
      ({ env with functional_groups := env.functional_groups ++ [{ g with ge_segment := some seg }] },
       none, curT)
    | none => (env, none, curT)
  else if seg.name = "ST".data then
    (env, curG, some ⟨seg.get_element 1 [], seg.get_element 2 [], []⟩)
  else if seg.name = "SE".data then
    match curT with
    | some t =>
      let env1 := { env with transactions := env.transactions ++ [t] }
      match curG with
      | some g => (env1, some { g with transactions := g.transactions ++ [t] }, none)
      | none => (env1, none, none)
    | none => (env, curG, curT)
  else
    match curT with
    | some t => (env, curG, some { t with segments := t.segments ++ [seg] })
    | none => (env, curG, curT)

/-- `X12Parser.parse`: raises `ValueError("Empty EDI content")` on
empty/whitespace input, otherwise detects separators (mutating the
instance), removes release characters, tokenizes and builds the envelope.
Returns the result together with the updated instance. -/
def X12Parser.parse (p0 : X12Parser) (content : Str) : Except Str X12Envelope × X12Parser :=
  if pyStrip content = [] then (.error ("Empty EDI content".data), p0)
  else
    let d := p0.detect_separators content
    let p : X12Parser := { d.2 with element_separator := d.1.1, segment_separator := d.1.2 }
    let content1 := p.remove_release_characters content
    let segments := x12Tokenize p.element_separator p.segment_separator content1
    let env0 : X12Envelope := segments.foldl x12HeaderStep ⟨none, none, [], []⟩
    let res := segments.foldl x12EnvStep (env0, none, none)
    (.ok res.1, p)

/-! ### EDIFACT data model (`src/edifact_parser.py`) -/

/-- `EdifactSegment`: a tag and composite elements (lists of components). -/
structure EdifactSegment where
  tag : Str
  elements : List (List Str)
deriving DecidableEq, Repr

/-- `EdifactSegment.get_element(position, component=0, default="")`:
1-indexed element, 0-indexed component, default on any out-of-range
access.  (In the parse output every element is a list, so the
`isinstance(element, list)` branch of the source is the one modelled.) -/
def EdifactSegment.get_element (seg : EdifactSegment) (position component : Nat)
    (default : Str) : Str :=
  if 1 ≤ position ∧ position ≤ seg.elements.length then
    let element := seg.elements.getD (position - 1) []
    if component < element.length then element.getD component default
    else default
  else default

/-- `EdifactMessage`. -/
structure EdifactMessage where
  message_type : Str
  message_version : Str
  segments : List EdifactSegment
deriving DecidableEq, Repr

/-- `EdifactMessage.get_segments(tag)`. -/
def EdifactMessage.get_segments (m : EdifactMessage) (tag : Str) : List EdifactSegment :=
  m.segments.filter (fun s => s.tag = tag)

/-- `EdifactMessage.get_segment(tag, index=0)`. -/
def EdifactMessage.get_segment (m : EdifactMessage) (tag : Str) (index : Nat) :
    Option EdifactSegment :=
  (m.get_segments tag).get? index

/-- `EdifactEnvelope`. -/
structure EdifactEnvelope where
  unb_segment : Option EdifactSegment
  unz_segment : Option EdifactSegment
  messages : List EdifactMessage
deriving DecidableEq, Repr

/-- `EdifactEnvelope.get_sender_id()`: UNB element 2, component 0. -/
def EdifactEnvelope.get_sender_id (e : EdifactEnvelope) : Str :=
  match e.unb_segment with
  | some unb => unb.get_element 2 0 []
  | none => []

/-- `EdifactEnvelope.get_receiver_id()`: UNB element 3, component 0. -/
def EdifactEnvelope.get_receiver_id (e : EdifactEnvelope) : Str :=
  match e.unb_segment with
  | some unb => unb.get_element 3 0 []
  | none => []

/-- The mutable configuration of an `EdifactParser` instance. -/
structure EdifactParser where
  element_separator : Char
  component_separator : Char
  segment_separator : Char
  release_character : Str
deriving DecidableEq, Repr

/-- `EdifactParser()` with the constructor defaults `+`, `:`, `'`, `?`. -/
def EdifactParser.init : EdifactParser := ⟨'+', ':', quoteChar, "?".data⟩

/-- The message of the `re.error` Python raises for the malformed patterns
of `edifact_parser.py`: the source literal `r'UNA([^'']{6})'` is two
adjacent string literals and concatenates to `UNA([^]{6})`, a character
set that is never closed (its first `]` is a literal member), and the UNA
removal literal `r'^UNA[^'']*'` concatenates to `^UNA[^]*...` with the
same defect. -/
def reUnterminatedMsg : Str := ("unterminated character set at position 4").data

/-- `EdifactParser.detect_separators`: its first statement,
`re.search(r'UNA([^'']{6})', content[:20])`, compiles the malformed
pattern `UNA([^]{6})` and raises `re.error("unterminated character set at
position 4")` on every call — before reading the content or reading or
writing any instance state.  The UNA-reading body below the search is
unreachable. -/
def EdifactParser.detect_separators (p : EdifactParser) (content : Str) :
    Except Str EdifactParser :=
  Except.error reUnterminatedMsg

/-- `re.sub(r'^UNA[^'']*' + re.escape(segment_separator), '', content)`:
the pattern literal concatenates to `^UNA[^]*` followed by the escaped
separator, again an unterminated character set, so compiling it raises the
same `re.error`.  In the program this line is unreachable:
`detect_separators` raises first. -/
def stripUNA (segSep : Char) (content : Str) : Except Str Str :=
  Except.error reUnterminatedMsg

/-- `EdifactParser._remove_release_characters`: a no-op only for an empty
release string; the character class holds the element, component and
segment separators and the release string's characters. -/
def EdifactParser.remove_release_characters (p : EdifactParser) (content : Str) : Str :=
  if p.release_character = [] then content
  else
    removeRelease p.release_character
      ([p.element_separator, p.component_separator, p.segment_separator] ++ p.release_character)
      content

/-- The tokenization loop of `EdifactParser.parse`: strip each chunk, skip
empty or shorter-than-3 chunks, tag is the first three characters, the rest
(`seg_raw[3:]`) is split into elements and components.  Note the element
split is applied to the text directly following the three-character tag,
which still begins with the element separator. -/
def edifactTokenize (p : EdifactParser) (content : Str) : List EdifactSegment :=
  (splitOnChar p.segment_separator content).filterMap (fun seg_raw =>
    let s := pyStrip seg_raw
    if s = [] then none
    else if s.length < 3 then none
    else
      let tag := s.take 3
      let seg_data := s.drop 3
      let elements : List (List Str) :=
        if seg_data = [] then []
        else
          (splitOnChar p.element_separator seg_data).map (fun elem_part =>
            if charIn p.component_separator elem_part then
              splitOnChar p.component_separator elem_part
            else if elem_part ≠ [] then [elem_part] else [[]])
      some ⟨tag, elements⟩)

/-- The UNB/UNZ discovery loop of `EdifactParser.parse`. -/
def edifactHeaderStep (e : EdifactEnvelope) (seg : EdifactSegment) : EdifactEnvelope :=
  if seg.tag = "UNB".data then { e with unb_segment := some seg }
  else if seg.tag = "UNZ".data then { e with unz_segment := some seg }
  else e

/-- One step of the message state machine of `EdifactParser.parse`:
state is (envelope, current_message).  `UNH` opens a message, reading its
type and version from element 2 (components 0 and 1), `UNT` closes it. -/
def edifactEnvStep (st : EdifactEnvelope × Option EdifactMessage) (seg : EdifactSegment) :
    EdifactEnvelope × Option EdifactMessage :=
  let env := st.1
  let curM := st.2
  if seg.tag = "UNH".data then
    let message_type_elem := seg.get_element 2 0 []
    let message_version := seg.get_element 2 1 []
    -- `message_version or "D"`
    (env, some ⟨message_type_elem, if message_version = [] then "D".data else message_version, []⟩)
  else if seg.tag = "UNT".data then
    match curM with
    | some m => ({ env with messages := env.messages ++ [m] }, none)
    | none => (env, none)
  else
    match curM with
    | some m => (env, some { m with segments := m.segments ++ [seg] })
    | none => (env, none)

/-- `EdifactParser.parse`: raises `ValueError("Empty EDI content")` on
empty/whitespace input; on every other input the `detect_separators` call
raises `re.error` (see above) before any state is touched, so the method
never returns an envelope.  The remainder of the source method (UNA strip,
release removal, tokenization, envelope build) is embedded as the success
continuation, which is unreachable. -/
def EdifactParser.parse (p0 : EdifactParser) (content : Str) :
    Except Str EdifactEnvelope × EdifactParser :=
  if pyStrip content = [] then (.error ("Empty EDI content".data), p0)
  else
    match p0.detect_separators content with
    | .error e => (.error e, p0)
    | .ok p =>
        match stripUNA p.segment_separator content with
        | .error e => (.error e, p)
        | .ok content1 =>
            let content2 := p.remove_release_characters content1
            let segments := edifactTokenize p content2
            let env0 : EdifactEnvelope := segments.foldl edifactHeaderStep ⟨none, none, []⟩
            let res := segments.foldl edifactEnvStep (env0, none)
            (.ok res.1, p)

/-! ### Validator (`src/edi_validator.py`) -/

/-- `ValidationLevel`. -/
inductive ValidationLevel where
  | ERROR
  | WARNING
  | INFO
deriving DecidableEq, Repr

/-- `ValidationError`. -/
structure ValidationError where
  level : ValidationLevel
  message : Str
  segment : Option Str
  position : Option Int
  rule : Option Str
deriving DecidableEq, Repr

/-- `ValidationResult`. -/
structure ValidationResult where
  is_valid : Bool
  errors : List ValidationError
  warnings : List ValidationError
deriving DecidableEq, Repr

/-- `ValidationResult.add_error`: append and flip validity to false. -/
def ValidationResult.add_error (r : ValidationResult) (message : Str)
    (segment : Option Str) (position : Option Int) (rule : Option Str) : ValidationResult :=
  { r with
    errors := r.errors ++ [⟨ValidationLevel.ERROR, message, segment, position, rule⟩],
    is_valid := false }

/-- `ValidationResult.add_warning`: append, validity untouched. -/
def ValidationResult.add_warning (r : ValidationResult) (message : Str)
    (segment : Option Str) (position : Option Int) (rule : Option Str) : ValidationResult :=
  { r with
    warnings := r.warnings ++ [⟨ValidationLevel.WARNING, message, segment, position, rule⟩] }

/-- The `EDIValidator` instance: one parser of each format, created by the
constructor and reused (hence stateful) across validations. -/
structure EDIValidator where
  x12Parser : X12Parser
  edifactParser : EdifactParser
deriving DecidableEq, Repr

/-- `EDIValidator()` with freshly constructed default parsers. -/
def EDIValidator.init : EDIValidator := ⟨X12Parser.init, EdifactParser.init⟩

/-- `EDIValidator._detect_edi_type`. -/
def detectEdiType (content : Str) : Str :=
  let content_stripped := pyStrip content
  if "ISA".data.isPrefixOf content_stripped then "X12".data
  else if "UNB".data.isPrefixOf content_stripped || "UNA".data.isPrefixOf content_stripped then
    "EDIFACT".data
  else "UNKNOWN".data

/-- `EDIValidator._validate_850`. -/
def validate850 (t : X12Transaction) (r : ValidationResult) : ValidationResult :=
  let r1 :=
    match t.get_segment ("BEG".data) 0 with
    | none =>
        r.add_error ("850 transaction missing BEG segment".data) none none
          (some ("BEG_REQUIRED_850".data))
    | some beg =>
        if beg.get_element 3 [] = [] then
          r.add_error ("BEG segment missing purchase order number".data) (some ("BEG".data))
            none none
        else r
  if t.get_segments ("PO1".data) = [] then
    r1.add_warning ("850 transaction has no line items (PO1 segments)".data) none none none
  else r1

/-- `EDIValidator._validate_855`. -/
def validate855 (t : X12Transaction) (r : ValidationResult) : ValidationResult :=
  match t.get_segment ("BAK".data) 0 with
  | none =>
      r.add_error ("855 transaction missing BAK segment".data) none none
        (some ("BAK_REQUIRED_855".data))
  | some _ => r

/-- `EDIValidator._validate_810`. -/
def validate810 (t : X12Transaction) (r : ValidationResult) : ValidationResult :=
  match t.get_segment ("BIG".data) 0 with
  | none =>
      r.add_error ("810 transaction missing BIG segment".data) none none
        (some ("BIG_REQUIRED_810".data))
  | some big =>
      if big.get_element 2 [] = [] then
        r.add_error ("BIG segment missing invoice number".data) (some ("BIG".data)) none none
      else r

/-- The transaction-type dispatch at the end of
`EDIValidator._validate_x12_transaction`. -/
def validateX12ByType (t : X12Transaction) (r : ValidationResult) : ValidationResult :=
  if t.transaction_type = "850".data then validate850 t r
  else if t.transaction_type = "855".data then validate855 t r
  else if t.transaction_type = "810".data then validate810 t r
  else r

/-- The ST-presence/type-match block at the head of
`EDIValidator._validate_x12_transaction`. -/
def checkSTSegment (t : X12Transaction) (r : ValidationResult) : ValidationResult :=
  match t.get_segment ("ST".data) 0 with
  | none =>
      r.add_error ("Transaction missing ST segment".data) none none
        (some ("ST_SE_REQUIRED".data))
  | some stseg =>
      let st_type := stseg.get_element 1 []
      if st_type ≠ t.transaction_type then
        r.add_error
          (("Transaction type mismatch: ST segment has ".data) ++ st_type ++
            (", expected ".data) ++ t.transaction_type)
          (some ("ST".data)) none none
      else r

/-- `EDIValidator._validate_x12_transaction`.  The `int(expected_count)` of
the segment-count comparison can raise a `ValueError` (modelled as
`Except.error`), which would propagate out of `validate`. -/
def validateX12Transaction (t : X12Transaction) (r : ValidationResult) :
    Except Str ValidationResult :=
  let se_segment := t.get_segment ("SE".data) 0
  let r1 := checkSTSegment t r
  match se_segment with
  | none =>
      .ok (validateX12ByType t
        (r1.add_error ("Transaction missing SE segment".data) none none
          (some ("ST_SE_REQUIRED".data))))
  | some seseg =>
      let expected_count := seseg.get_element 1 []
      let actual_count := t.segments.length
      if expected_count = [] then .ok (validateX12ByType t r1)
      else
        match pyInt? expected_count with
        | none => .error (("invalid literal for int() with base 10: ".data) ++ expected_count)
        | some n =>
            let r2 :=
              if n ≠ (actual_count : Int) then
                r1.add_warning
                  (("Segment count mismatch: SE indicates ".data) ++ expected_count ++
                    (", actual count is ".data) ++ (Nat.repr actual_count).data)
                  (some ("SE".data)) none none
              else r1
            .ok (validateX12ByType t r2)

/-- The `for transaction in envelope.transactions` loop of
`EDIValidator._validate_x12`. -/
def validateX12TransList (ts : List X12Transaction) (r : ValidationResult) :
    Except Str ValidationResult :=
  match ts with
  | [] => .ok r
  | t :: rest => do
      let r1 ← validateX12Transaction t r
      validateX12TransList rest r1

/-- The per-group body of `_validate_x12`'s functional-group loop. -/
def checkGroupStep (r : ValidationResult) (g : X12Group) : ValidationResult :=
  let rg :=
    match g.gs_segment with
    | none => r.add_error ("Functional group missing GS segment".data) none none none
    | some _ => r
  match g.ge_segment with
  | none => rg.add_warning ("Functional group missing GE segment".data) none none none
  | some _ => rg

/-- The ISA block of `EDIValidator._validate_x12`: presence, element
count, sender/receiver identifiers. -/
def checkISABlock (env : X12Envelope) (r0 : ValidationResult) : ValidationResult :=
  match env.isa_segment with
  | none => r0.add_error ("Missing ISA segment (interchange header)".data) none none none
  | some isa =>
      let ra :=
        if isa.elements.length < 16 then
          r0.add_error ("ISA segment has insufficient elements (expected 16)".data)
            (some ("ISA".data)) none none
        else r0
      let sender_id := pyStrip (isa.get_element 6 [])
      let receiver_id := pyStrip (isa.get_element 8 [])
      let rb :=
        if sender_id = [] then
          ra.add_error ("Missing sender ID in ISA segment".data) (some ("ISA".data)) none none
        else ra
      if receiver_id = [] then
        rb.add_error ("Missing receiver ID in ISA segment".data) (some ("ISA".data)) none none
      else rb

/-- The IEA block of `EDIValidator._validate_x12`. -/
def checkIEABlock (env : X12Envelope) (r1 : ValidationResult) : ValidationResult :=
  match env.iea_segment with
  | none => r1.add_warning ("Missing IEA segment (interchange trailer)".data) none none none
  | some _ => r1

/-- The envelope-structure checks of `EDIValidator._validate_x12`
(ISA presence/arity/sender/receiver, IEA warning, functional groups). -/
def checkX12Envelope (env : X12Envelope) (r0 : ValidationResult) : ValidationResult :=
  let r2 := checkIEABlock env (checkISABlock env r0)
  if env.functional_groups = [] then
    r2.add_warning ("No functional groups found".data) none none none
  else
    env.functional_groups.foldl checkGroupStep r2

/-- `EDIValidator._validate_x12`. -/
def validateX12 (v : EDIValidator) (content : Str) :
    Except Str ValidationResult × EDIValidator :=
  let r0 : ValidationResult := ⟨true, [], []⟩
  match v.x12Parser.parse content with
  | (.error e, p') =>
      (.ok (r0.add_error (("Parse error: ".data) ++ e) none none none),
       { v with x12Parser := p' })
  | (.ok env, p') =>
      let r3 := checkX12Envelope env r0
      if env.transactions = [] then
        (.ok (r3.add_warning ("No transactions found".data) none none none),
         { v with x12Parser := p' })
      else
        (validateX12TransList env.transactions r3, { v with x12Parser := p' })

/-- `EDIValidator._validate_orders`. -/
def validateOrders (m : EdifactMessage) (r : ValidationResult) : ValidationResult :=
  match m.get_segment ("BGM".data) 0 with
  | none =>
      r.add_error ("ORDERS message missing BGM segment".data) none none
        (some ("BGM_REQUIRED_ORDERS".data))
  | some bgm =>
      if bgm.get_element 2 0 [] = [] then
        r.add_warning ("BGM segment missing order number".data) (some ("BGM".data)) none none
      else r

/-- `EDIValidator._validate_desadv`. -/
def validateDesadv (m : EdifactMessage) (r : ValidationResult) : ValidationResult :=
  match m.get_segment ("BGM".data) 0 with
  | none =>
      r.add_error ("DESADV message missing BGM segment".data) none none
        (some ("BGM_REQUIRED_DESADV".data))
  | some _ => r

/-- `EDIValidator._validate_invoic`. -/
def validateInvoic (m : EdifactMessage) (r : ValidationResult) : ValidationResult :=
  match m.get_segment ("BGM".data) 0 with
  | none =>
      r.add_error ("INVOIC message missing BGM segment".data) none none
        (some ("BGM_REQUIRED_INVOIC".data))
  | some bgm =>
      if bgm.get_element 2 0 [] = [] then
        r.add_error ("BGM segment missing invoice number".data) (some ("BGM".data)) none none
      else r

/-- The message-type dispatch at the end of
`EDIValidator._validate_edifact_message`. -/
def validateEdifactByType (m : EdifactMessage) (r : ValidationResult) : ValidationResult :=
  if m.message_type = "ORDERS".data then validateOrders m r
  else if m.message_type = "DESADV".data then validateDesadv m r
  else if m.message_type = "INVOIC".data then validateInvoic m r
  else r

/-- The UNH-presence/type-match block at the head of
`EDIValidator._validate_edifact_message`. -/
def checkUNHSegment (m : EdifactMessage) (r : ValidationResult) : ValidationResult :=
  match m.get_segment ("UNH".data) 0 with
  | none =>
      r.add_error ("Message missing UNH segment".data) none none
        (some ("UNH_UNT_REQUIRED".data))
  | some unh =>
      let msg_type := unh.get_element 2 0 []
      if msg_type ≠ m.message_type then
        r.add_error
          (("Message type mismatch: UNH has ".data) ++ msg_type ++
            (", expected ".data) ++ m.message_type)
          (some ("UNH".data)) none none
      else r

/-- `EDIValidator._validate_edifact_message`. -/
def validateEdifactMessage (m : EdifactMessage) (r : ValidationResult) :
    Except Str ValidationResult :=
  let unt_segment := m.get_segment ("UNT".data) 0
  let r1 := checkUNHSegment m r
  match unt_segment with
  | none =>
      .ok (validateEdifactByType m
        (r1.add_error ("Message missing UNT segment".data) none none
          (some ("UNH_UNT_REQUIRED".data))))
  | some unt =>
      let expected_count := unt.get_element 1 0 []
      let actual_count := m.segments.length
      if expected_count = [] then .ok (validateEdifactByType m r1)
      else
        match pyInt? expected_count with
        | none => .error (("invalid literal for int() with base 10: ".data) ++ expected_count)
        | some n =>
            let r2 :=
              if n ≠ (actual_count : Int) then
                r1.add_warning
                  (("Segment count mismatch: UNT indicates ".data) ++ expected_count ++
                    (", actual count is ".data) ++ (Nat.repr actual_count).data)
                  (some ("UNT".data)) none none
              else r1
            .ok (validateEdifactByType m r2)

/-- The `for message in envelope.messages` loop of
`EDIValidator._validate_edifact`. -/
def validateEdifactMsgList (ms : List EdifactMessage) (r : ValidationResult) :
    Except Str ValidationResult :=
  match ms with
  | [] => .ok r
  | m :: rest => do
      let r1 ← validateEdifactMessage m r
      validateEdifactMsgList rest r1

/-- The UNB block of `EDIValidator._validate_edifact`: presence and
sender/receiver identifiers. -/
def checkUNBBlock (env : EdifactEnvelope) (r0 : ValidationResult) : ValidationResult :=
  match env.unb_segment with
  | none => r0.add_error ("Missing UNB segment (interchange header)".data) none none none
  | some unb =>
      let sender_id := unb.get_element 2 0 []
      let receiver_id := unb.get_element 3 0 []
      let ra :=
        if sender_id = [] then
          r0.add_error ("Missing sender ID in UNB segment".data) (some ("UNB".data)) none none
        else r0
      if receiver_id = [] then
        ra.add_error ("Missing receiver ID in UNB segment".data) (some ("UNB".data)) none none
      else ra

/-- The envelope-structure checks of `EDIValidator._validate_edifact`. -/
def checkEdifactEnvelope (env : EdifactEnvelope) (r0 : ValidationResult) : ValidationResult :=
  let r1 := checkUNBBlock env r0
  match env.unz_segment with
  | none => r1.add_warning ("Missing UNZ segment (interchange trailer)".data) none none none
  | some _ => r1

/-- `EDIValidator._validate_edifact`. -/
def validateEdifact (v : EDIValidator) (content : Str) :
    Except Str ValidationResult × EDIValidator :=
  let r0 : ValidationResult := ⟨true, [], []⟩
  match v.edifactParser.parse content with
  | (.error e, p') =>
      (.ok (r0.add_error (("Parse error: ".data) ++ e) none none none),
       { v with edifactParser := p' })
  | (.ok env, p') =>
      let r1 := checkEdifactEnvelope env r0
      if env.messages = [] then
        (.ok (r1.add_warning ("No messages found".data) none none none),
         { v with edifactParser := p' })
      else
        (validateEdifactMsgList env.messages r1, { v with edifactParser := p' })

/-- `EDIValidator.validate(content, edi_type=None)`. -/
def EDIValidator.validate (v : EDIValidator) (content : Str) (edi_type : Option Str) :
    Except Str ValidationResult × EDIValidator :=
  let result : ValidationResult := ⟨true, [], []⟩
  if pyStrip content = [] then
    (.ok (result.add_error ("Empty EDI content".data) none none none), v)
  else
    -- `if not edi_type:` — None or the empty string trigger auto-detection
    let ty :=
      match edi_type with
      | some t => if t = [] then detectEdiType content else t
      | none => detectEdiType content
    if ty = "X12".data then validateX12 v content
    else if ty = "EDIFACT".data then validateEdifact v content
    else
      (.ok (result.add_error (("Unknown or unsupported EDI type: ".data) ++ ty) none none none),
       v)

/-! ### Extracted generic data (`extract_transaction_data` /
`extract_message_data`) -/

/-- The loosely-typed Python values the extractors build: strings, lists
and insertion-ordered dicts. -/
inductive PyVal where
  | s : Str → PyVal
  | l : List PyVal → PyVal
  | d : List (Str × PyVal) → PyVal

/-- Lookup in an insertion-ordered dict. -/
def pyLookup (entries : List (Str × PyVal)) (k : Str) : Option PyVal :=
  (entries.find? (fun e => e.1 = k)).map (fun e => e.2)

/-- `v[k]` on a dict value; `none` on any other shape or a missing key. -/
def PyVal.get (v : PyVal) (k : Str) : Option PyVal :=
  match v with
  | .d entries => pyLookup entries k
  | _ => none

/-- `dict[k] = v` with Python semantics: an existing key keeps its
position, a new key is appended. -/
def dictSet (entries : List (Str × PyVal)) (k : Str) (v : PyVal) : List (Str × PyVal) :=
  if entries.any (fun e => e.1 = k) then
    entries.map (fun e => if e.1 = k then (e.1, v) else e)
  else entries ++ [(k, v)]

/-- `X12Parser._extract_850_data`. -/
def extract850Data (t : X12Transaction) : List (Str × PyVal) :=
  let base : List (Str × PyVal) :=
    match t.get_segment ("BEG".data) 0 with
    | some beg =>
        [(("po_number").data, .s (beg.get_element 3 [])),
         (("po_date").data, .s (beg.get_element 5 [])),
         (("po_type").data, .s (beg.get_element 2 []))]
    | none => []
  let parties := (t.get_segments ("N1".data)).map (fun n1 =>
    PyVal.d [(("entity_id").data, .s (n1.get_element 1 [])),
             (("name").data, .s (n1.get_element 2 []))])
  let line_items := (t.get_segments ("PO1".data)).map (fun po1 =>
    PyVal.d [(("line_number").data, .s (po1.get_element 1 [])),
             (("quantity").data, .s (po1.get_element 2 [])),
             (("unit_price").data, .s (po1.get_element 4 [])),
             (("product_id").data, .s (po1.get_element 7 []))])
  base ++ [(("parties").data, .l parties), (("line_items").data, .l line_items)]

/-- `X12Parser._extract_855_data`. -/
def extract855Data (t : X12Transaction) : List (Str × PyVal) :=
  match t.get_segment ("BAK".data) 0 with
  | some bak =>
      [(("po_number").data, .s (bak.get_element 3 [])),
       (("ack_date").data, .s (bak.get_element 4 [])),
       (("ack_type").data, .s (bak.get_element 2 []))]
  | none => []

/-- `X12Parser._extract_810_data`. -/
def extract810Data (t : X12Transaction) : List (Str × PyVal) :=
  let base : List (Str × PyVal) :=
    match t.get_segment ("BIG".data) 0 with
    | some big =>
        [(("invoice_number").data, .s (big.get_element 2 [])),
         (("invoice_date").data, .s (big.get_element 3 [])),
         (("po_number").data, .s (big.get_element 4 []))]
    | none => []
  let line_items := (t.get_segments ("IT1".data)).map (fun it1 =>
    PyVal.d [(("line_number").data, .s (it1.get_element 1 [])),
             (("quantity").data, .s (it1.get_element 2 [])),
             (("unit_price").data, .s (it1.get_element 4 [])),
             (("product_id").data, .s (it1.get_element 7 []))])
  base ++ [(("line_items").data, .l line_items)]

/-- `X12Parser._extract_856_data`. -/
def extract856Data (t : X12Transaction) : List (Str × PyVal) :=
  match t.get_segment ("BSN".data) 0 with
  | some bsn =>
      [(("shipment_id").data, .s (bsn.get_element 2 [])),
       (("ship_date").data, .s (bsn.get_element 3 []))]
  | none => []

/-- `X12Parser.extract_transaction_data`: always a mapping with
`transaction_type`, `control_number` and a `data` key; the `data` dict is
empty for unknown transaction types. -/
def extractTransactionData (t : X12Transaction) : PyVal :=
  let inner : List (Str × PyVal) :=
    if t.transaction_type = "850".data then extract850Data t
    else if t.transaction_type = "855".data then extract855Data t
    else if t.transaction_type = "810".data then extract810Data t
    else if t.transaction_type = "856".data then extract856Data t
    else []
  .d [(("transaction_type").data, .s t.transaction_type),
      (("control_number").data, .s t.control_number),
      (("data").data, .d inner)]

/-- The `DTM` qualifier-to-value dict built by the EDIFACT extractors. -/
def edifactDatesDict (m : EdifactMessage) : List (Str × PyVal) :=
  (m.get_segments ("DTM".data)).foldl (fun dates dtm =>
    dictSet dates (dtm.get_element 1 0 []) (.s (dtm.get_element 1 1 []))) []

/-- `EdifactParser._extract_orders_data`. -/
def extractOrdersData (m : EdifactMessage) : List (Str × PyVal) :=
  let base : List (Str × PyVal) :=
    match m.get_segment ("BGM".data) 0 with
    | some bgm =>
        [(("order_number").data, .s (bgm.get_element 2 0 [])),
         (("order_type").data, .s (bgm.get_element 1 0 [])),
         (("order_date").data, .s (bgm.get_element 4 0 []))]
    | none => []
  let parties := (m.get_segments ("NAD".data)).map (fun nad =>
    PyVal.d [(("qualifier").data, .s (nad.get_element 1 0 [])),
             (("id").data, .s (nad.get_element 2 0 [])),
             (("name").data, .s (nad.get_element 3 0 []))])
  let line_items := (m.get_segments ("LIN".data)).map (fun lin =>
    PyVal.d [(("line_number").data, .s (lin.get_element 1 0 [])),
             (("product_id").data, .s (lin.get_element 3 0 []))])
  base ++ [(("dates").data, .d (edifactDatesDict m)),
           (("parties").data, .l parties),
           (("line_items").data, .l line_items)]

/-- `EdifactParser._extract_desadv_data`. -/
def extractDesadvData (m : EdifactMessage) : List (Str × PyVal) :=
  let base : List (Str × PyVal) :=
    match m.get_segment ("BGM".data) 0 with
    | some bgm =>
        [(("despatch_number").data, .s (bgm.get_element 2 0 [])),
         (("despatch_type").data, .s (bgm.get_element 1 0 []))]
    | none => []
  base ++ [(("dates").data, .d (edifactDatesDict m))]

/-- `EdifactParser._extract_invoic_data`. -/
def extractInvoicData (m : EdifactMessage) : List (Str × PyVal) :=
  let base : List (Str × PyVal) :=
    match m.get_segment ("BGM".data) 0 with
    | some bgm =>
        [(("invoice_number").data, .s (bgm.get_element 2 0 [])),
         (("invoice_type").data, .s (bgm.get_element 1 0 [])),
         (("invoice_date").data, .s (bgm.get_element 4 0 []))]
    | none => []
  let line_items := (m.get_segments ("LIN".data)).map (fun lin =>
    PyVal.d [(("line_number").data, .s (lin.get_element 1 0 [])),
             (("product_id").data, .s (lin.get_element 3 0 []))])
  base ++ [(("dates").data, .d (edifactDatesDict m)),
           (("line_items").data, .l line_items)]

/-- `EdifactParser.extract_message_data`. -/
def extractMessageData (m : EdifactMessage) : PyVal :=
  let inner : List (Str × PyVal) :=
    if m.message_type = "ORDERS".data then extractOrdersData m
    else if m.message_type = "DESADV".data then extractDesadvData m
    else if m.message_type = "INVOIC".data then extractInvoicData m
    else []
  .d [(("message_type").data, .s m.message_type),
      (("message_version").data, .s m.message_version),
      (("data").data, .d inner)]

/-! ### Transformer (`src/edi_transformer.py`), X12 → EDIFACT path -/

/-- The `datetime.now().strftime(...)` values the transformer embeds in its
output, supplied explicitly: `%Y%m%d%H%M%S`, `%Y%m%d`, `%y%m%d`, `%H%M`. -/
structure NowStrings where
  ts14 : Str
  d8 : Str
  d6 : Str
  t4 : Str

/-- The segment dictionaries (`{"tag": ..., "elements": ...}`) built by
`EDITransformer._convert_x12_transaction_to_edifact`. -/
structure EdiSegData where
  tag : Str
  elements : List (List Str)

/-- `EDITransformer._convert_x12_transaction_to_edifact`: returns the
`{"segments": ..., "message_type": ...}` pair. -/
def convertX12TransactionToEdifact (t : X12Transaction) (message_type : Str)
    (now : NowStrings) : List EdiSegData × Str :=
  let msgRef := ("MSG").data ++ now.ts14
  let unh : EdiSegData := ⟨"UNH".data, [[msgRef], [message_type, "D".data, "96A".data, "UN".data]]⟩
  let bgmList : List EdiSegData :=
    if t.transaction_type = "850".data then
      match t.get_segment ("BEG".data) 0 with
      | some beg => [⟨"BGM".data, [["220".data], [beg.get_element 3 []], ["9".data]]⟩]
      | none => []
    else []
  let dtm : EdiSegData := ⟨"DTM".data, [["137".data, now.d8]]⟩
  let nads := (t.get_segments ("N1".data)).map (fun n1 =>
    (⟨"NAD".data, [[n1.get_element 1 []], [n1.get_element 2 []], [n1.get_element 4 []]]⟩ :
      EdiSegData))
  let linqty := (t.get_segments ("PO1".data)).flatMap (fun po1 =>
    [(⟨"LIN".data, [[po1.get_element 1 []], [], [po1.get_element 7 []]]⟩ : EdiSegData),
     (⟨"QTY".data, [["21".data], [po1.get_element 2 []]]⟩ : EdiSegData)])
  let segments := [unh] ++ bgmList ++ [dtm] ++ nads ++ linqty
  let unt : EdiSegData := ⟨"UNT".data, [[(Nat.repr (segments.length + 1)).data], [msgRef]]⟩
  (segments ++ [unt], message_type)

/-- `EDITransformer._format_edifact_segment`: tag and colon-joined
composite elements, plus-joined, apostrophe-terminated. -/
def formatEdifactSegment (tag : Str) (elements : List (List Str)) : Str :=
  List.intercalate ("+".data) (tag :: elements.map (fun e => List.intercalate (":".data) e)) ++
    [quoteChar]

/-- `EDITransformer._build_edifact_envelope`: UNA line, synthesized UNB,
the converted message segments, synthesized UNZ, newline-joined. -/
def buildEdifactEnvelope (messageSegs : List EdiSegData) (x12_envelope : X12Envelope)
    (now : NowStrings) : Str :=
  let sender_id :=
    if x12_envelope.get_sender_id = [] then ("SENDER").data else x12_envelope.get_sender_id
  let receiver_id :=
    if x12_envelope.get_receiver_id = [] then ("RECEIVER").data else x12_envelope.get_receiver_id
  let unb_elements : List (List Str) :=
    [["UNOA".data, "2".data], [sender_id, []], [receiver_id, []], [now.d6, now.t4], ["0001".data]]
  let lines :=
    [("UNA:+.? ").data ++ [quoteChar]] ++
    [formatEdifactSegment ("UNB".data) unb_elements] ++
    messageSegs.map (fun sd => formatEdifactSegment sd.tag sd.elements) ++
    [formatEdifactSegment ("UNZ".data) [["1".data], ["0001".data]]]
  List.intercalate [Char.ofNat 10] lines

/-- `EDITransformer.transform_x12_to_edifact`: parse (with the
transformer's own X12 parser instance), require at least one transaction,
convert the first and wrap it in an EDIFACT envelope.  Both the parser's
empty-input error and the `ValueError("No transactions found in X12
content")` propagate. -/
def transformX12ToEdifact (xp : X12Parser) (x12_content : Str) (message_type : Str)
    (now : NowStrings) : Except Str Str × X12Parser :=
  match xp.parse x12_content with
  | (.error e, xp') => (.error e, xp')
  | (.ok env, xp') =>
      match env.transactions with
      | [] => (.error ("No transactions found in X12 content".data), xp')
      | transaction :: _ =>
          let conv := convertX12TransactionToEdifact transaction message_type now
          (.ok (buildEdifactEnvelope conv.1 env now), xp')

/-! ### Concrete scenario inputs (spec §8) and small sample values -/

/-- Scenario A (spec §8), with the elided ISA fields filled in to the
standard 16-element fixed-width layout: sender `SENDERID`, receiver
`RECEIVERID`, one 850 with `BEG`, one `N1`, one `PO1`. -/
def scenarioA : Str :=
  ("ISA*00*          *00*          *ZZ*SENDERID       *ZZ*RECEIVERID     *250101*1200*U*00501*000000001*0*P*:~GS*PO*SAPP*RAPP*20250101*1200*1*X*005010~ST*850*0001~BEG*00*SA*PO123456**20250101~N1*BY*Acme~PO1*1*10*EA*5.00**VP*SKU1~SE*4*0001~GE*1*1~IEA*1*000000001~").data

/-- Scenario B (spec §8): Scenario A with the `BEG` segment removed. -/
def scenarioB : Str :=
  ("ISA*00*          *00*          *ZZ*SENDERID       *ZZ*RECEIVERID     *250101*1200*U*00501*000000001*0*P*:~GS*PO*SAPP*RAPP*20250101*1200*1*X*005010~ST*850*0001~N1*BY*Acme~PO1*1*10*EA*5.00**VP*SKU1~SE*4*0001~GE*1*1~IEA*1*000000001~").data

/-- Scenario D (spec §8): the EDIFACT ORDERS interchange with a UNA
service advice. -/
def scenarioD : Str :=
  ("UNA:+.? ").data ++ [quoteChar] ++
  ("UNB+UNOA:2+SENDER:+RECEIVER:+250101:1200+1").data ++ [quoteChar] ++
  ("UNH+1+ORDERS:D:96A:UN").data ++ [quoteChar] ++
  ("BGM+220+ORD123+9").data ++ [quoteChar] ++
  ("UNT+3+1").data ++ [quoteChar] ++
  ("UNZ+1+1").data ++ [quoteChar]

/-- Fixed clock readings for the transformer. -/
def nowFixed : NowStrings :=
  ⟨("20250101120000").data, ("20250101").data, ("250101").data, ("1200").data⟩

/-- An X12 interchange whose fixed-width ISA header (103 characters free
of `*` and `~` after the tag) declares `|` as the element separator, with
`~` at the segment-terminator offset 106. -/
def c4X12First : Str := ("ISA|").data ++ List.replicate 102 'a' ++ ("~").data

/-- The instance state `X12Parser.parse` leaves behind after
`c4X12First`. -/
def c4X12StaleState : X12Parser := ⟨'|', '~', "?".data⟩

/-- A default-delimited X12 body without a detectable ISA header. -/
def c4X12Second : Str := ("GS*1~ST*850*0001~SE*2*0001~").data

/-- What the stale instance makes of `c4X12Second`: the carried-over `|`
element separator never splits, so no GS/ST/SE segment is recognised and
nothing is captured. -/
def c4X12StaleEnvelope : X12Envelope := ⟨none, none, [], []⟩

/-- What a fresh default instance makes of `c4X12Second`: one 850
transaction (the functional group is dropped for want of a GE). -/
def c4X12FreshEnvelope : X12Envelope :=
  ⟨none, none, [], [⟨"850".data, "0001".data, []⟩]⟩

/-- A minimal X12 transaction body used to witness the boundary-retention
theorem. -/
def c8X12Input : Str := ("ST*850*0001~AAA*1~SE*2*0001~").data

/-- The transaction `c8X12Input` parses to. -/
def c8Transaction : X12Transaction :=
  ⟨"850".data, "0001".data, [⟨"AAA".data, ["1".data]⟩]⟩

/-- The envelope `c8X12Input` parses to. -/
def c8X12Envelope : X12Envelope := ⟨none, none, [], [c8Transaction]⟩

/-- A minimal non-empty EDIFACT message body, used as a concrete input to
the EDIFACT parse/validation theorems. -/
def c8EdifactInput : Str :=
  ("UNH+1+ORDERS").data ++ [quoteChar] ++ ("BGM+220").data ++ [quoteChar] ++
  ("UNT+2+1").data ++ [quoteChar]


/-- The first error `validate` reports on Scenario B. -/
def stMissingError : ValidationError :=
  ⟨.ERROR, ("Transaction missing ST segment").data, none, none, some (("ST_SE_REQUIRED").data)⟩

/-- The second error `validate` reports on Scenario B. -/
def seMissingError : ValidationError :=
  ⟨.ERROR, ("Transaction missing SE segment").data, none, none, some (("ST_SE_REQUIRED").data)⟩

/-- The third error `validate` reports on Scenario B. -/
def begMissingError : ValidationError :=
  ⟨.ERROR, ("850 transaction missing BEG segment").data, none, none,
   some (("BEG_REQUIRED_850").data)⟩

/-- The full result `validate` returns on Scenario B. -/
def scenarioBResult : ValidationResult :=
  ⟨false, [stMissingError, seMissingError, begMissingError], []⟩

/-- The single transaction Scenario B parses to (no `ST`/`SE`/`BEG`). -/
def scenarioBTransaction : X12Transaction :=
  ⟨"850".data, "0001".data,
   [⟨"N1".data, ["BY".data, "Acme".data]⟩,
    ⟨"PO1".data, ["1".data, "10".data, "EA".data, ("5.00").data, [], "VP".data, "SKU1".data]⟩]⟩

/-- The `data` dict extracted from Scenario B's transaction: parties and
line items, no `po_number`. -/
def scenarioBDataEntries : List (Str × PyVal) :=
  [(("parties").data,
    .l [.d [(("entity_id").data, .s ("BY").data), (("name").data, .s ("Acme").data)]]),
   (("line_items").data,
    .l [.d [(("line_number").data, .s ("1").data), (("quantity").data, .s ("10").data),
            (("unit_price").data, .s ("5.00").data),
            (("product_id").data, .s ("SKU1").data)]])]

/-! ### Supporting lemmas -/

theorem isaScan_length : ∀ {l g : Str}, isaScan l = some g → g.length = 103 := by
  intro l
  induction l with
  | nil => intro g h; simp [isaScan] at h
  | cons c cs ih =>
    intro g h
    unfold isaScan at h
    split_ifs at h with h1
    · simp only at h
      split_ifs at h with h2
      · rw [Option.some_inj] at h
        subst h
        simpa using (Bool.and_eq_true _ _ |>.mp h2).1
      · exact ih h
    · exact ih h

/-- A successful ISA scan means the scanned text contains an `I`. -/
theorem isaScan_memI : ∀ {l g : Str}, isaScan l = some g → 'I' ∈ l := by
  intro l
  induction l with
  | nil => intro g h; simp [isaScan] at h
  | cons c cs ih =>
    intro g h
    unfold isaScan at h
    split_ifs at h with h1
    · obtain ⟨t, ht⟩ := List.isPrefixOf_iff_prefix.mp h1
      have h3 : 'I' :: 'S' :: 'A' :: t = c :: cs := ht
      injection h3 with h4 _
      rw [← h4]
      exact List.mem_cons_self _ _
    · exact List.mem_cons_of_mem _ (ih h)

/-- Every non-empty input makes `EdifactParser.parse` raise the `re.error`
of its malformed UNA pattern, leaving the instance untouched. -/
theorem edifactParse_raises (q : EdifactParser) (content : Str)
    (h : pyStrip content ≠ []) :
    q.parse content = (Except.error reUnterminatedMsg, q) := by
  unfold EdifactParser.parse
  rw [if_neg h]
  rfl

/-- Fuel irrelevance for `removeReleaseAux`: any fuel at least the length
of the text computes the same result as fuel exactly the length. -/
theorem removeReleaseAux_fuel (rc : Str) (sp : List Char) :
    ∀ (fuel : Nat) (l : Str), l.length ≤ fuel →
      removeReleaseAux rc sp fuel l = removeReleaseAux rc sp l.length l := by
  intro fuel
  induction fuel using Nat.strong_induction_on with
  | _ fuel ih =>
    intro l hl
    cases l with
    | nil => cases fuel <;> rfl
    | cons c cs =>
      cases fuel with
      | zero => simp at hl
      | succ f =>
        have hcs : cs.length ≤ f := by simpa using hl
        simp only [List.length_cons]
        simp only [removeReleaseAux]
        split_ifs with hpre
        · cases hdrop : List.drop rc.length (c :: cs) with
          | nil =>
              dsimp only
              rw [ih f (Nat.lt_succ_self f) cs hcs]
          | cons d ds =>
              have hds : ds.length ≤ cs.length := by
                have := congrArg List.length hdrop
                simp [List.length_drop] at this
                omega
              dsimp only
              split_ifs with hmem
              · rw [ih f (Nat.lt_succ_self f) ds (le_trans hds hcs),
                    ih cs.length (Nat.lt_succ_of_le hcs) ds hds]
              · rw [ih f (Nat.lt_succ_self f) cs hcs]
        · rw [ih f (Nat.lt_succ_self f) cs hcs]

/-- The substitution on the empty string. -/
theorem removeRelease_nil (rc : Str) (sp : List Char) : removeRelease rc sp [] = [] := rfl

/-- At an occurrence — the release string followed by one of the special
characters — the substitution emits that character, removes the release
string, and continues after the match (left to right, no overlap). -/
theorem removeRelease_occurrence (rc : Str) (sp : List Char) (d : Char) (rest : Str)
    (hrc : rc ≠ []) (hd : d ∈ sp) :
    removeRelease rc sp (rc ++ d :: rest) = d :: removeRelease rc sp rest := by
  cases rc with
  | nil => exact absurd rfl hrc
  | cons r0 rtl =>
    have hsplit : (r0 :: rtl : Str) ++ d :: rest = r0 :: (rtl ++ d :: rest) := rfl
    have hcond : (decide ((r0 :: rtl : Str) ≠ []) &&
        (r0 :: rtl : Str).isPrefixOf (r0 :: (rtl ++ d :: rest))) = true := by
      refine (Bool.and_eq_true _ _).mpr ⟨decide_eq_true (by simp), ?_⟩
      exact List.isPrefixOf_iff_prefix.mpr ⟨d :: rest, by simp⟩
    have hdrop : List.drop (r0 :: rtl : Str).length (r0 :: (rtl ++ d :: rest)) =
        d :: rest := by
      rw [← hsplit, List.drop_left]
    have hfuel : rest.length ≤ (rtl ++ d :: rest).length := by
      simp [List.length_append]
      omega
    unfold removeRelease
    rw [hsplit]
    simp only [List.length_cons]
    simp only [removeReleaseAux]
    rw [if_pos hcond, hdrop]
    dsimp only
    rw [if_pos hd]
    rw [removeReleaseAux_fuel (r0 :: rtl) sp ((rtl ++ d :: rest).length) rest hfuel]

/-- Away from an occurrence the substitution copies the head character and
continues with the rest of the text. -/
theorem removeRelease_copy (rc : Str) (sp : List Char) (c : Char) (rest : Str)
    (h : ¬(rc ≠ [] ∧ rc.isPrefixOf (c :: rest) = true ∧
          ∃ d ds, List.drop rc.length (c :: rest) = d :: ds ∧ d ∈ sp)) :
    removeRelease rc sp (c :: rest) = c :: removeRelease rc sp rest := by
  unfold removeRelease
  simp only [List.length_cons]
  simp only [removeReleaseAux]
  split_ifs with h1
  · have h1b := Bool.and_eq_true _ _ |>.mp h1
    have hne : rc ≠ [] := of_decide_eq_true h1b.1
    have hpre : rc.isPrefixOf (c :: rest) = true := h1b.2
    cases hdrop : List.drop rc.length (c :: rest) with
    | nil => rfl
    | cons d ds =>
        dsimp only
        rw [if_neg (fun hmem => h ⟨hne, hpre, d, ds, hdrop, hmem⟩)]
  · rfl

theorem pyStrip_ne_nil {l : Str} {ch : Char} (hm : ch ∈ l) (hs : isPySpace ch = false) :
    pyStrip l ≠ [] := by
  intro hempty
  unfold pyStrip at hempty
  rw [List.reverse_eq_nil_iff] at hempty
  have hall2 : ∀ a ∈ l.dropWhile isPySpace, isPySpace a := by
    intro a ha
    exact List.dropWhile_eq_nil_iff.mp hempty a (List.mem_reverse.mpr ha)
  have hor : ch ∈ l.takeWhile isPySpace ++ l.dropWhile isPySpace := by
    rw [List.takeWhile_append_dropWhile]; exact hm
  have : isPySpace ch = true := by
    rcases List.mem_append.mp hor with h | h
    · exact List.mem_takeWhile_imp h
    · exact hall2 ch h
  rw [hs] at this
  exact Bool.false_ne_true this

/-! ### C9 — out-of-range element/component access -/

/-- C9: for every segment, 1-indexed element access (and, for EDIFACT,
0-indexed component access) returns the empty-string default whenever the
requested position or component is out of range; access is total (the
embedding functions are total Lean functions), so it never raises. -/
theorem c9_get_element_out_of_range_default :
    (∀ (seg : X12Segment) (position : Nat),
        ¬(1 ≤ position ∧ position ≤ seg.elements.length) →
        seg.get_element position [] = []) ∧
    (∀ (seg : EdifactSegment) (position component : Nat),
        (¬(1 ≤ position ∧ position ≤ seg.elements.length) ∨
          (seg.elements.getD (position - 1) []).length ≤ component) →
        seg.get_element position component [] = []) := by
  constructor
  · intro seg position h
    simp [X12Segment.get_element, h]
  · intro seg position component h
    unfold EdifactSegment.get_element
    by_cases hp : 1 ≤ position ∧ position ≤ seg.elements.length
    · rcases h with h | h
      · exact absurd hp h
      · have hc : ¬(component < (seg.elements.getD (position - 1) []).length) := by omega
        simp only [hp, and_self, if_true]
        rw [if_neg hc]
    · simp [hp]

/-- Witness for C9 at concrete out-of-range accesses. -/
theorem c9_witness :
    ((⟨"BEG".data, ["00".data]⟩ : X12Segment).get_element 3 [] = []) ∧
    ((⟨"BGM".data, [["220".data]]⟩ : EdifactSegment).get_element 1 5 [] = []) :=
  ⟨c9_get_element_out_of_range_default.1 ⟨"BEG".data, ["00".data]⟩ 3 (by decide),
   c9_get_element_out_of_range_default.2 ⟨"BGM".data, [["220".data]]⟩ 1 5 (by decide)⟩

/-! ### C3 — exceptions of the parse path -/

/-- C3 (code bug): `X12Parser.parse` raises exactly on empty/whitespace
input (`ValueError("Empty EDI content")`, instance untouched) and returns
an envelope on every other input, as the claim states.  But
`EdifactParser.parse` raises on EVERY input: the empty-input `ValueError`
on empty/whitespace input and, on every other input, the `re.error` from
its malformed UNA pattern — so for EDIFACT the empty-input error is NOT
the only propagated exception and no input parses at all. -/
theorem c3_parse_error_characterization :
    (∀ (p : X12Parser) (content : Str),
        (pyStrip content = [] →
          p.parse content = (.error ("Empty EDI content".data), p)) ∧
        (pyStrip content ≠ [] →
          ∃ env p', p.parse content = (.ok env, p'))) ∧
    (∀ (q : EdifactParser) (content : Str),
        (pyStrip content = [] →
          q.parse content = (.error ("Empty EDI content".data), q)) ∧
        (pyStrip content ≠ [] →
          q.parse content = (.error reUnterminatedMsg, q))) := by
  constructor
  · intro p content
    constructor
    · intro h
      unfold X12Parser.parse
      rw [if_pos h]
    · intro h
      unfold X12Parser.parse
      rw [if_neg h]
      exact ⟨_, _, rfl⟩
  · intro q content
    constructor
    · intro h
      unfold EdifactParser.parse
      rw [if_pos h]
    · intro h
      exact edifactParse_raises q content h

/-- Witness for C3: the empty branch at `"  "` and `""`, the X12 success
branch at a one-character input, and the EDIFACT `re.error` at a concrete
non-empty input. -/
theorem c3_witness :
    (X12Parser.init.parse ("  ").data = (.error ("Empty EDI content".data), X12Parser.init)) ∧
    (∃ env p', X12Parser.init.parse ("A").data = (.ok env, p')) ∧
    (EdifactParser.init.parse ("").data =
      (.error ("Empty EDI content".data), EdifactParser.init)) ∧
    (EdifactParser.init.parse c8EdifactInput =
      (.error reUnterminatedMsg, EdifactParser.init)) :=
  ⟨(c3_parse_error_characterization.1 X12Parser.init ("  ").data).1 (by decide),
   (c3_parse_error_characterization.1 X12Parser.init ("A").data).2 (by decide),
   (c3_parse_error_characterization.2 EdifactParser.init ("").data).1 (by decide),
   (c3_parse_error_characterization.2 EdifactParser.init c8EdifactInput).2 (by decide)⟩

/-! ### C6 — the X12 release-character unescape -/

/-- C6 counterexample: with the default release character `"?"`, the X12
tokenizer performs no unescaping at all, so `?*` is NOT collapsed to a
literal `*` as the claim states. -/
theorem c6_counterexample :
    X12Parser.init.remove_release_characters ("A?*B").data = ("A?*B").data ∧
    ("A?*B").data ≠ ("A*B").data := by
  exact ⟨rfl, by decide⟩

/-- C6 amended: `_remove_release_characters` leaves the text unchanged
whenever the release character is empty or the default `"?"`, and X12
separator detection never modifies the stored release character (its
captured ISA group always has exactly 103 characters, short of the 105
required by the `len(isa_data) > 104` guard), so a default-configured X12
parse never unescapes.  Only an explicitly configured non-empty,
non-`"?"` release character triggers unescaping, and then the text is
rewritten by `removeRelease` over the class holding the element separator,
the segment separator and the release characters: scanning left to right
without overlap, every occurrence of the release string followed by one of
those characters is collapsed to that literal character with the release
string removed (the occurrence equation), every other position copies its
character (the copy equation), and the empty text maps to itself. -/
theorem c6_amended_release_handling :
    (∀ (p : X12Parser) (content : Str),
        p.release_character = [] ∨ p.release_character = "?".data →
        p.remove_release_characters content = content) ∧
    (∀ (p : X12Parser) (content : Str),
        ((p.detect_separators content).2).release_character = p.release_character) ∧
    (∀ (p : X12Parser) (content : Str),
        ¬(p.release_character = []) → ¬(p.release_character = "?".data) →
        p.remove_release_characters content =
          removeRelease p.release_character
            ([p.element_separator, p.segment_separator] ++ p.release_character) content) ∧
    (∀ (rc : Str) (sp : List Char) (d : Char) (rest : Str),
        rc ≠ [] → d ∈ sp →
        removeRelease rc sp (rc ++ d :: rest) = d :: removeRelease rc sp rest) ∧
    (∀ (rc : Str) (sp : List Char) (c : Char) (rest : Str),
        ¬(rc ≠ [] ∧ rc.isPrefixOf (c :: rest) = true ∧
          ∃ d ds, List.drop rc.length (c :: rest) = d :: ds ∧ d ∈ sp) →
        removeRelease rc sp (c :: rest) = c :: removeRelease rc sp rest) ∧
    (∀ (rc : Str) (sp : List Char), removeRelease rc sp [] = []) := by
  refine ⟨?_, ?_, ?_, removeRelease_occurrence, removeRelease_copy, removeRelease_nil⟩
  · intro p content h
    unfold X12Parser.remove_release_characters
    rcases h with h | h <;> simp [h]
  · intro p content
    unfold X12Parser.detect_separators
    cases hscan : isaScan (content.take 200) with
    | none => rfl
    | some g =>
        have hlen : g.length = 103 := isaScan_length hscan
        simp only [hlen]
        rw [if_neg (by omega)]
  · intro p content h1 h2
    unfold X12Parser.remove_release_characters
    split_ifs with hc
    · rw [Bool.or_eq_true] at hc
      rcases hc with hc | hc
      · exact absurd (of_decide_eq_true hc) h1
      · exact absurd (of_decide_eq_true hc) h2
    · rfl

/-- Witness for C6: the default no-op, the detection invariance, and a
configured `^` release character collapsing `^*` to a literal `*`. -/
theorem c6_witness :
    X12Parser.init.remove_release_characters ("X?~Y").data = ("X?~Y").data ∧
    ((X12Parser.init.detect_separators scenarioA).2).release_character =
      X12Parser.init.release_character ∧
    (⟨'*', '~', ("^").data⟩ : X12Parser).remove_release_characters ("A^*B").data =
      removeRelease ("^").data (['*', '~'] ++ ("^").data) ("A^*B").data ∧
    removeRelease ("^").data (['*', '~'] ++ ("^").data) (("^").data ++ '*' :: ("B").data) =
      '*' :: removeRelease ("^").data (['*', '~'] ++ ("^").data) ("B").data :=
  ⟨c6_amended_release_handling.1 X12Parser.init ("X?~Y").data (Or.inr rfl),
   c6_amended_release_handling.2.1 X12Parser.init scenarioA,
   c6_amended_release_handling.2.2.1 ⟨'*', '~', ("^").data⟩ ("A^*B").data
     (by decide) (by decide),
   c6_amended_release_handling.2.2.2.1 ("^").data (['*', '~'] ++ ("^").data) '*' ("B").data
     (by decide) (by decide)⟩

/-! ### C10 — unknown EDI type handling in `validate` -/

/-- C10 counterexample: the empty string's stripped content starts with
none of `ISA`, `UNB`, `UNA`, yet `validate` reports "Empty EDI content",
not the unknown-type message the claim requires for every such input. -/
theorem c10_counterexample :
    ("ISA".data.isPrefixOf (pyStrip ("").data)) = false ∧
    ("UNB".data.isPrefixOf (pyStrip ("").data)) = false ∧
    ("UNA".data.isPrefixOf (pyStrip ("").data)) = false ∧
    (EDIValidator.init.validate ("").data none).1 =
      .ok ⟨false, [⟨.ERROR, "Empty EDI content".data, none, none, none⟩], []⟩ ∧
    ¬("Empty EDI content".data = ("Unknown or unsupported EDI type: UNKNOWN").data) := by
  exact ⟨rfl, rfl, rfl, rfl, by decide⟩

/-- C10 amended: for every input that is not empty/whitespace and whose
stripped content starts with none of `ISA`, `UNB`, `UNA`, `validate` with
`edi_type=None` returns — without raising — an invalid result holding
exactly one error, whose message states the EDI type is unknown or
unsupported.  (Empty/whitespace input instead yields the dedicated
"Empty EDI content" error.) -/
theorem c10_amended_unknown_type :
    ∀ (v : EDIValidator) (content : Str),
      pyStrip content ≠ [] →
      ("ISA".data.isPrefixOf (pyStrip content)) = false →
      ("UNB".data.isPrefixOf (pyStrip content)) = false →
      ("UNA".data.isPrefixOf (pyStrip content)) = false →
      (v.validate content none).1 =
        .ok ⟨false,
          [⟨.ERROR, ("Unknown or unsupported EDI type: UNKNOWN").data, none, none, none⟩],
          []⟩ := by
  intro v content h h1 h2 h3
  unfold EDIValidator.validate detectEdiType
  rw [if_neg h]
  simp only [h1, h2, h3]
  rfl

/-- Witness for C10 at a concrete unknown-format input. -/
theorem c10_witness :
    (EDIValidator.init.validate ("HELLO WORLD").data none).1 =
      .ok ⟨false,
        [⟨.ERROR, ("Unknown or unsupported EDI type: UNKNOWN").data, none, none, none⟩],
        []⟩ :=
  c10_amended_unknown_type EDIValidator.init ("HELLO WORLD").data
    (by decide) (by decide) (by decide) (by decide)

/-! ### C1 — Scenario B validation and extraction -/

/-- C1 (code bug): on Scenario B (Scenario A minus `BEG`), `validate`
returns an invalid result whose error list has THREE errors — two
`ST_SE_REQUIRED` errors (the envelope builder never retains the `ST`/`SE`
boundary segments inside `transaction.segments`, yet
`_validate_x12_transaction` looks for them there) followed by
`BEG_REQUIRED_850` — not exactly one error as the claim states.
Extraction still returns a mapping with a `data` key whose dict lacks
`po_number`, as the claim states. -/
theorem c1_scenarioB_validation_eval :
    (EDIValidator.init.validate scenarioB none).1 = Except.ok scenarioBResult ∧
    scenarioBResult.is_valid = false ∧
    scenarioBResult.errors.length = 3 ∧
    scenarioBResult.errors.map (fun e => e.rule) =
      [some (("ST_SE_REQUIRED").data), some (("ST_SE_REQUIRED").data),
       some (("BEG_REQUIRED_850").data)] ∧
    scenarioBResult.warnings = [] ∧
    (X12Parser.init.parse scenarioB).1.map (fun env => env.transactions) =
      Except.ok [scenarioBTransaction] ∧
    (extractTransactionData scenarioBTransaction).get ("data".data) =
      some (PyVal.d scenarioBDataEntries) ∧
    pyLookup scenarioBDataEntries (("po_number").data) = none ∧
    (pyLookup scenarioBDataEntries (("parties").data)).isSome = true ∧
    (pyLookup scenarioBDataEntries (("line_items").data)).isSome = true := by
  exact ⟨rfl, rfl, rfl, rfl, rfl, rfl, rfl, rfl, rfl, rfl⟩

/-! ### C7 — Scenario D parsing and extraction -/

/-- C7 (code bug): parsing Scenario D raises the `re.error` of the
malformed UNA pattern — the parser produces no message at all, let alone
one of type `ORDERS` with order number `ORD123` — and validating
Scenario D reports exactly one "Parse error: unterminated character set at
position 4" error. -/
theorem c7_scenarioD_eval :
    EdifactParser.init.parse scenarioD =
      (Except.error reUnterminatedMsg, EdifactParser.init) ∧
    (EDIValidator.init.validate scenarioD none).1.toOption =
      some ⟨false,
        [⟨ValidationLevel.ERROR, ("Parse error: ").data ++ reUnterminatedMsg,
          none, none, none⟩],
        []⟩ := by
  refine ⟨edifactParse_raises EdifactParser.init scenarioD (by decide), by decide⟩

/-! ### C5 — X12 → EDIFACT round trip of sender/receiver -/

/-- C5 (code bug): Scenario A parses with sender `SENDERID` and receiver
`RECEIVERID`, and the transformer's X12-to-EDIFACT path produces output;
but re-parsing that output raises the EDIFACT parser's `re.error`
(malformed UNA pattern), so the output has NO parsed sender or receiver
identifiers at all — the round trip cannot preserve them. -/
theorem c5_roundtrip_eval :
    (X12Parser.init.parse scenarioA).1.toOption.map
        (fun env => (env.get_sender_id, env.get_receiver_id)) =
      some (("SENDERID").data, ("RECEIVERID").data) ∧
    ((transformX12ToEdifact X12Parser.init scenarioA ("ORDERS").data nowFixed).1.toOption.map
        (fun out => (EdifactParser.init.parse out).1.toOption)) = some none ∧
    ((transformX12ToEdifact X12Parser.init scenarioA ("ORDERS").data nowFixed).1.toOption.map
        (fun out =>
          match (EdifactParser.init.parse out).1 with
          | Except.error e => e
          | Except.ok _ => [])) = some reUnterminatedMsg := by
  refine ⟨by decide, by decide, by decide⟩

/-! ### C4 — parser state carried across parse calls -/

/-- C4 counterexample: parsing `c4X12First` stores the detected `|`/`~`
separators on the `X12Parser` instance; the same instance then parses the
default-delimited `c4X12Second` into an envelope with no transactions,
while a freshly constructed parser finds one — parse(c2) after parse(c1)
does NOT return the same envelope as a fresh instance's parse(c2). -/
theorem c4_counterexample :
    (X12Parser.init.parse c4X12First).2 = c4X12StaleState ∧
    ¬(c4X12StaleState = X12Parser.init) ∧
    (c4X12StaleState.parse c4X12Second).1.toOption = some c4X12StaleEnvelope ∧
    (X12Parser.init.parse c4X12Second).1.toOption = some c4X12FreshEnvelope ∧
    ¬(c4X12StaleEnvelope = c4X12FreshEnvelope) ∧
    c4X12StaleEnvelope.transactions.length = 0 ∧
    c4X12FreshEnvelope.transactions.length = 1 := by
  refine ⟨by decide, by decide, by decide, by decide, by decide, rfl, rfl⟩

/-- C4 amended: `EdifactParser.parse` is trivially call-independent — it
raises before reading or writing any instance state, so its result is the
same for every instance state and the instance comes back unchanged.
`X12Parser.parse`, by contrast, stores the detected separators on the
instance and later calls fall back to them (see the counterexample); a
call behaves exactly like one on a freshly constructed parser when its
input carries a detectable ISA header (the separators then come from the
input alone) and the instance holds the constructor-default release
character. -/
theorem c4_amended_state_dependence :
    (∀ (q q2 : EdifactParser) (content : Str),
        (q.parse content).2 = q ∧
        (q.parse content).1 = (q2.parse content).1) ∧
    (∀ (p : X12Parser) (content : Str),
        p.release_character = "?".data →
        (isaScan (content.take 200)).isSome = true →
        p.parse content = X12Parser.parse X12Parser.init content) := by
  constructor
  · intro q q2 content
    by_cases h : pyStrip content = []
    · constructor
      · unfold EdifactParser.parse
        rw [if_pos h]
      · unfold EdifactParser.parse
        rw [if_pos h, if_pos h]
    · constructor
      · rw [edifactParse_raises q content h]
      · rw [edifactParse_raises q content h, edifactParse_raises q2 content h]
  · intro p content hrel hisa
    obtain ⟨g, hg⟩ := Option.isSome_iff_exists.mp hisa
    have hI : 'I' ∈ content := List.take_subset 200 content (isaScan_memI hg)
    have hne : pyStrip content ≠ [] := pyStrip_ne_nil hI (by decide)
    have hlen : g.length = 103 := isaScan_length hg
    obtain ⟨pe, ps, pr⟩ := p
    have hrel2 : pr = "?".data := hrel
    subst hrel2
    unfold X12Parser.parse
    rw [if_neg hne, if_neg hne]
    unfold X12Parser.detect_separators
    rw [hg]
    dsimp only
    have h104 : ¬(104 < g.length) := by omega
    rw [if_neg h104, if_neg h104]
    rfl

/-- Witness for C4's amended statement: a scrambled EDIFACT instance gives
the same result as a fresh one, and an X12 parse with a detectable ISA
header matches a fresh parser's despite a scrambled separator state. -/
theorem c4_witness :
    ((⟨'*', ';', '|', []⟩ : EdifactParser).parse c8EdifactInput).1 =
      (EdifactParser.init.parse c8EdifactInput).1 ∧
    (⟨'|', '@', "?".data⟩ : X12Parser).parse c4X12First =
      X12Parser.parse X12Parser.init c4X12First :=
  ⟨(c4_amended_state_dependence.1 ⟨'*', ';', '|', []⟩ EdifactParser.init c8EdifactInput).2,
   c4_amended_state_dependence.2 ⟨'|', '@', "?".data⟩ c4X12First rfl (by decide)⟩

/-! ### C8 — the declared-vs-actual segment-count comparison -/

/-- The X12 envelope state machine never stores an `ST` or `SE` segment in
any transaction's segment list: one step preserves that invariant for both
the accumulated transactions and the open transaction. -/
theorem x12EnvStep_no_boundary
    (st : X12Envelope × Option X12Group × Option X12Transaction) (seg : X12Segment)
    (h1 : ∀ t ∈ st.1.transactions, ∀ s ∈ t.segments,
        ¬(s.name = "ST".data) ∧ ¬(s.name = "SE".data))
    (h2 : ∀ t, st.2.2 = some t → ∀ s ∈ t.segments,
        ¬(s.name = "ST".data) ∧ ¬(s.name = "SE".data)) :
    (∀ t ∈ (x12EnvStep st seg).1.transactions, ∀ s ∈ t.segments,
        ¬(s.name = "ST".data) ∧ ¬(s.name = "SE".data)) ∧
    (∀ t, (x12EnvStep st seg).2.2 = some t → ∀ s ∈ t.segments,
        ¬(s.name = "ST".data) ∧ ¬(s.name = "SE".data)) := by
  obtain ⟨env, curG, curT⟩ := st
  unfold x12EnvStep
  split_ifs with hGS hGE hST hSE
  · exact ⟨h1, h2⟩
  · cases curG <;> exact ⟨h1, h2⟩
  · refine ⟨h1, ?_⟩
    intro t ht s hs
    injection ht with ht
    subst ht
    simp at hs
  · cases hT : curT with
    | none => exact ⟨h1, fun t ht => by simp at ht⟩
    | some t0 =>
        have h2' := h2 t0 (by rw [hT])
        cases curG with
        | none =>
            refine ⟨?_, fun t ht => by simp at ht⟩
            intro t ht s hs
            rcases List.mem_append.mp ht with hm | hm
            · exact h1 t hm s hs
            · rw [List.mem_singleton.mp hm] at hs
              exact h2' s hs
        | some g =>
            refine ⟨?_, fun t ht => by simp at ht⟩
            intro t ht s hs
            rcases List.mem_append.mp ht with hm | hm
            · exact h1 t hm s hs
            · rw [List.mem_singleton.mp hm] at hs
              exact h2' s hs
  · cases hT : curT with
    | none => exact ⟨h1, fun t ht => by rw [hT] at h2; exact h2 t ht⟩
    | some t0 =>
        have h2' := h2 t0 (by rw [hT])
        refine ⟨h1, ?_⟩
        intro t ht s hs
        injection ht with ht
        subst ht
        rcases List.mem_append.mp hs with hm | hm
        · exact h2' s hm
        · rw [List.mem_singleton.mp hm]
          exact ⟨hST, hSE⟩

/-- The invariant of `x12EnvStep_no_boundary` extends over a whole fold. -/
theorem x12Fold_no_boundary :
    ∀ (segs : List X12Segment) (st : X12Envelope × Option X12Group × Option X12Transaction),
      (∀ t ∈ st.1.transactions, ∀ s ∈ t.segments,
          ¬(s.name = "ST".data) ∧ ¬(s.name = "SE".data)) →
      (∀ t, st.2.2 = some t → ∀ s ∈ t.segments,
          ¬(s.name = "ST".data) ∧ ¬(s.name = "SE".data)) →
      ∀ t ∈ (segs.foldl x12EnvStep st).1.transactions, ∀ s ∈ t.segments,
        ¬(s.name = "ST".data) ∧ ¬(s.name = "SE".data) := by
  intro segs
  induction segs with
  | nil => intro st h1 h2; exact h1
  | cons seg rest ih =>
      intro st h1 h2
      have hstep := x12EnvStep_no_boundary st seg h1 h2
      exact ih (x12EnvStep st seg) hstep.1 hstep.2

/-- The ISA/IEA discovery fold never touches the transaction list. -/
theorem x12HeaderFold_transactions :
    ∀ (segs : List X12Segment) (e : X12Envelope),
      (segs.foldl x12HeaderStep e).transactions = e.transactions := by
  intro segs
  induction segs with
  | nil => intro e; rfl
  | cons seg rest ih =>
      intro e
      rw [List.foldl_cons, ih]
      unfold x12HeaderStep
      split_ifs <;> rfl

/-- A transaction containing no segment of a given name yields `None` from
`get_segment`. -/
theorem x12_get_segment_none {t : X12Transaction} {nm : Str}
    (h : ∀ s ∈ t.segments, ¬(s.name = nm)) : t.get_segment nm 0 = none := by
  unfold X12Transaction.get_segment X12Transaction.get_segments
  have : t.segments.filter (fun s => s.name = nm) = [] := by
    rw [List.filter_eq_nil_iff]
    intro s hs
    simpa using h s hs
  rw [this]
  rfl

/-- C8 (code bug): the declared-vs-actual segment-count comparison can
never run.  For X12, the envelope builder never retains `ST`/`SE` inside
the captured segment list, so `get_segment("SE")` is always `None` inside
`_validate_x12_transaction` and the validator emits "missing SE segment"
errors instead of the claimed count-mismatch warning.  For EDIFACT there
are no parsed messages at all: `parse` never returns an envelope (its UNA
regex raises `re.error`), and EDIFACT validation of any non-empty input
reports exactly one "Parse error: unterminated character set at position
4" error — never the UNT count comparison. -/
theorem c8_boundary_segments_not_retained :
    (∀ (p p' : X12Parser) (content : Str) (env : X12Envelope),
        p.parse content = (Except.ok env, p') →
        ∀ t ∈ env.transactions,
          t.get_segment ("ST".data) 0 = none ∧ t.get_segment ("SE".data) 0 = none) ∧
    (∀ (q : EdifactParser) (content : Str),
        ((q.parse content).1.toOption : Option EdifactEnvelope) = none) ∧
    (∀ (v : EDIValidator) (content : Str),
        pyStrip content ≠ [] →
        (validateEdifact v content).1 =
          Except.ok ⟨false,
            [⟨ValidationLevel.ERROR, ("Parse error: ").data ++ reUnterminatedMsg,
              none, none, none⟩],
            []⟩) := by
  refine ⟨?_, ?_, ?_⟩
  · intro p p' content env hparse t ht
    unfold X12Parser.parse at hparse
    by_cases hne : pyStrip content = []
    · rw [if_pos hne] at hparse
      exact absurd (congrArg Prod.fst hparse) (by simp)
    · rw [if_neg hne] at hparse
      have henv := congrArg Prod.fst hparse
      simp only [Except.ok.injEq] at henv
      have hnb := x12Fold_no_boundary _ _
        (by
          intro t' ht' s hs
          rw [x12HeaderFold_transactions] at ht'
          simp at ht')
        (by intro t' ht'; simp at ht')
        t (henv ▸ ht)
      exact ⟨x12_get_segment_none (fun s hs => (hnb s hs).1),
             x12_get_segment_none (fun s hs => (hnb s hs).2)⟩
  · intro q content
    by_cases h : pyStrip content = []
    · unfold EdifactParser.parse
      rw [if_pos h]
      rfl
    · rw [edifactParse_raises q content h]
      rfl
  · intro v content h
    unfold validateEdifact
    rw [edifactParse_raises v.edifactParser content h]
    rfl

/-- Witness for C8: the boundary-segment conclusions at the concrete X12
input, and the EDIFACT parse/validation behavior at a concrete non-empty
input. -/
theorem c8_witness :
    (c8Transaction.get_segment ("ST".data) 0 = none ∧
     c8Transaction.get_segment ("SE".data) 0 = none) ∧
    ((EdifactParser.init.parse c8EdifactInput).1.toOption = none) ∧
    ((validateEdifact EDIValidator.init c8EdifactInput).1 =
      Except.ok ⟨false,
        [⟨ValidationLevel.ERROR, ("Parse error: ").data ++ reUnterminatedMsg,
          none, none, none⟩],
        []⟩) :=
  ⟨c8_boundary_segments_not_retained.1 X12Parser.init X12Parser.init c8X12Input
      c8X12Envelope rfl c8Transaction (List.mem_singleton.mpr rfl),
   c8_boundary_segments_not_retained.2.1 EdifactParser.init c8EdifactInput,
   c8_boundary_segments_not_retained.2.2 EDIValidator.init c8EdifactInput (by decide)⟩

/-! ### C2 — validity flag iff empty error list -/

/-- `add_error` output always satisfies the validity invariant: the flag
becomes false and the error list non-empty. -/
theorem resInv_add_error (r : ValidationResult) (m : Str) (sg : Option Str)
    (ps : Option Int) (rl : Option Str) :
    ((r.add_error m sg ps rl).is_valid = true ↔ (r.add_error m sg ps rl).errors = []) := by
  simp [ValidationResult.add_error]

/-- `add_warning` preserves the validity invariant. -/
theorem resInv_add_warning (r : ValidationResult) (m : Str) (sg : Option Str)
    (ps : Option Int) (rl : Option Str)
    (h : r.is_valid = true ↔ r.errors = []) :
    ((r.add_warning m sg ps rl).is_valid = true ↔ (r.add_warning m sg ps rl).errors = []) := by
  simpa [ValidationResult.add_warning] using h

/-- The ST check preserves the validity invariant. -/
theorem resInv_checkSTSegment (t : X12Transaction) (r : ValidationResult)
    (h : r.is_valid = true ↔ r.errors = []) :
    ((checkSTSegment t r).is_valid = true ↔ (checkSTSegment t r).errors = []) := by
  unfold checkSTSegment
  cases t.get_segment ("ST".data) 0 with
  | none => exact resInv_add_error _ _ _ _ _
  | some stseg =>
      dsimp only
      split_ifs
      · exact resInv_add_error _ _ _ _ _
      · exact h

/-- `_validate_850` preserves the validity invariant. -/
theorem resInv_validate850 (t : X12Transaction) (r : ValidationResult)
    (h : r.is_valid = true ↔ r.errors = []) :
    ((validate850 t r).is_valid = true ↔ (validate850 t r).errors = []) := by
  unfold validate850
  cases t.get_segment ("BEG".data) 0 with
  | none =>
      dsimp only
      split_ifs
      · exact resInv_add_warning _ _ _ _ _ (resInv_add_error _ _ _ _ _)
      · exact resInv_add_error _ _ _ _ _
  | some beg =>
      dsimp only
      split_ifs
      · exact resInv_add_warning _ _ _ _ _ (resInv_add_error _ _ _ _ _)
      · exact resInv_add_warning _ _ _ _ _ h
      · exact resInv_add_error _ _ _ _ _
      · exact h

/-- `_validate_855` preserves the validity invariant. -/
theorem resInv_validate855 (t : X12Transaction) (r : ValidationResult)
    (h : r.is_valid = true ↔ r.errors = []) :
    ((validate855 t r).is_valid = true ↔ (validate855 t r).errors = []) := by
  unfold validate855
  cases t.get_segment ("BAK".data) 0 with
  | none => exact resInv_add_error _ _ _ _ _
  | some _ => exact h

/-- `_validate_810` preserves the validity invariant. -/
theorem resInv_validate810 (t : X12Transaction) (r : ValidationResult)
    (h : r.is_valid = true ↔ r.errors = []) :
    ((validate810 t r).is_valid = true ↔ (validate810 t r).errors = []) := by
  unfold validate810
  cases t.get_segment ("BIG".data) 0 with
  | none => exact resInv_add_error _ _ _ _ _
  | some big =>
      dsimp only
      split_ifs
      · exact resInv_add_error _ _ _ _ _
      · exact h

/-- The X12 per-type dispatch preserves the validity invariant. -/
theorem resInv_validateX12ByType (t : X12Transaction) (r : ValidationResult)
    (h : r.is_valid = true ↔ r.errors = []) :
    ((validateX12ByType t r).is_valid = true ↔ (validateX12ByType t r).errors = []) := by
  unfold validateX12ByType
  split_ifs
  · exact resInv_validate850 t r h
  · exact resInv_validate855 t r h
  · exact resInv_validate810 t r h
  · exact h

/-- `_validate_x12_transaction` preserves the validity invariant on every
non-raising path. -/
theorem resInv_validateX12Transaction (t : X12Transaction) (r r' : ValidationResult)
    (h : r.is_valid = true ↔ r.errors = [])
    (hok : validateX12Transaction t r = .ok r') :
    r'.is_valid = true ↔ r'.errors = [] := by
  have h1 := resInv_checkSTSegment t r h
  unfold validateX12Transaction at hok
  cases hse : t.get_segment ("SE".data) 0 with
  | none =>
      rw [hse] at hok
      simp only [Except.ok.injEq] at hok
      rw [← hok]
      exact resInv_validateX12ByType _ _ (resInv_add_error _ _ _ _ _)
  | some seseg =>
      rw [hse] at hok
      simp only at hok
      split_ifs at hok with hexp
      · simp only [Except.ok.injEq] at hok
        rw [← hok]
        exact resInv_validateX12ByType _ _ h1
      · cases hint : pyInt? (seseg.get_element 1 []) with
        | none => rw [hint] at hok; simp at hok
        | some n =>
            rw [hint] at hok
            dsimp only at hok
            split_ifs at hok with hn <;>
              · simp only [Except.ok.injEq] at hok
                rw [← hok]
                first
                  | exact resInv_validateX12ByType _ _ (resInv_add_warning _ _ _ _ _ h1)
                  | exact resInv_validateX12ByType _ _ h1

/-- The transaction loop preserves the validity invariant. -/
theorem resInv_validateX12TransList :
    ∀ (ts : List X12Transaction) (r r' : ValidationResult),
      (r.is_valid = true ↔ r.errors = []) →
      validateX12TransList ts r = .ok r' →
      (r'.is_valid = true ↔ r'.errors = []) := by
  intro ts
  induction ts with
  | nil =>
      intro r r' h hok
      unfold validateX12TransList at hok
      simp only [Except.ok.injEq] at hok
      rw [← hok]
      exact h
  | cons t rest ih =>
      intro r r' h hok
      unfold validateX12TransList at hok
      cases h1 : validateX12Transaction t r with
      | error e => rw [h1] at hok; simp [bind, Except.bind] at hok
      | ok r1 =>
          rw [h1] at hok
          simp only [bind, Except.bind] at hok
          exact ih r1 r' (resInv_validateX12Transaction t r r1 h h1) hok

/-- The per-group check preserves the validity invariant. -/
theorem resInv_checkGroupStep (r : ValidationResult) (g : X12Group)
    (h : r.is_valid = true ↔ r.errors = []) :
    ((checkGroupStep r g).is_valid = true ↔ (checkGroupStep r g).errors = []) := by
  unfold checkGroupStep
  cases g.gs_segment with
  | none =>
      dsimp only
      cases g.ge_segment with
      | none => exact resInv_add_warning _ _ _ _ _ (resInv_add_error _ _ _ _ _)
      | some _ => exact resInv_add_error _ _ _ _ _
  | some _ =>
      dsimp only
      cases g.ge_segment with
      | none => exact resInv_add_warning _ _ _ _ _ h
      | some _ => exact h

/-- The functional-group loop preserves the validity invariant. -/
theorem resInv_groupFold :
    ∀ (gs : List X12Group) (r : ValidationResult),
      (r.is_valid = true ↔ r.errors = []) →
      ((gs.foldl checkGroupStep r).is_valid = true ↔ (gs.foldl checkGroupStep r).errors = []) := by
  intro gs
  induction gs with
  | nil => intro r h; exact h
  | cons g rest ih =>
      intro r h
      rw [List.foldl_cons]
      exact ih _ (resInv_checkGroupStep r g h)

/-- The ISA block preserves the validity invariant. -/
theorem resInv_checkISABlock (env : X12Envelope) (r0 : ValidationResult)
    (h : r0.is_valid = true ↔ r0.errors = []) :
    ((checkISABlock env r0).is_valid = true ↔ (checkISABlock env r0).errors = []) := by
  unfold checkISABlock
  cases env.isa_segment with
  | none => exact resInv_add_error _ _ _ _ _
  | some isa =>
      dsimp only
      split_ifs <;>
        first
          | exact resInv_add_error _ _ _ _ _
          | exact h

/-- The IEA block preserves the validity invariant. -/
theorem resInv_checkIEABlock (env : X12Envelope) (r1 : ValidationResult)
    (h : r1.is_valid = true ↔ r1.errors = []) :
    ((checkIEABlock env r1).is_valid = true ↔ (checkIEABlock env r1).errors = []) := by
  unfold checkIEABlock
  cases env.iea_segment with
  | none => exact resInv_add_warning _ _ _ _ _ h
  | some _ => exact h

/-- The X12 envelope checks preserve the validity invariant. -/
theorem resInv_checkX12Envelope (env : X12Envelope) (r0 : ValidationResult)
    (h : r0.is_valid = true ↔ r0.errors = []) :
    ((checkX12Envelope env r0).is_valid = true ↔ (checkX12Envelope env r0).errors = []) := by
  unfold checkX12Envelope
  have h2 := resInv_checkIEABlock env _ (resInv_checkISABlock env r0 h)
  split_ifs
  · exact resInv_add_warning _ _ _ _ _ h2
  · exact resInv_groupFold _ _ h2

/-- `_validate_x12` preserves the validity invariant on every non-raising
path. -/
theorem resInv_validateX12 (v : EDIValidator) (content : Str)
    (r' : ValidationResult) (v' : EDIValidator)
    (hok : validateX12 v content = (.ok r', v')) :
    r'.is_valid = true ↔ r'.errors = [] := by
  unfold validateX12 at hok
  have hinit : ((⟨true, [], []⟩ : ValidationResult).is_valid = true ↔
      (⟨true, [], []⟩ : ValidationResult).errors = []) := by simp
  cases hp : v.x12Parser.parse content with
  | mk res p1 =>
      rw [hp] at hok
      cases res with
      | error e =>
          dsimp only at hok
          have := congrArg Prod.fst hok
          simp only [Except.ok.injEq] at this
          rw [← this]
          exact resInv_add_error _ _ _ _ _
      | ok env =>
          dsimp only at hok
          split_ifs at hok with hemp
          · have := congrArg Prod.fst hok
            simp only [Except.ok.injEq] at this
            rw [← this]
            exact resInv_add_warning _ _ _ _ _ (resInv_checkX12Envelope env _ hinit)
          · have := congrArg Prod.fst hok
            dsimp only at this
            exact resInv_validateX12TransList env.transactions _ r'
              (resInv_checkX12Envelope env _ hinit) this

/-- The UNH check preserves the validity invariant. -/
theorem resInv_checkUNHSegment (m : EdifactMessage) (r : ValidationResult)
    (h : r.is_valid = true ↔ r.errors = []) :
    ((checkUNHSegment m r).is_valid = true ↔ (checkUNHSegment m r).errors = []) := by
  unfold checkUNHSegment
  cases m.get_segment ("UNH".data) 0 with
  | none => exact resInv_add_error _ _ _ _ _
  | some unh =>
      dsimp only
      split_ifs
      · exact resInv_add_error _ _ _ _ _
      · exact h

/-- `_validate_orders` preserves the validity invariant. -/
theorem resInv_validateOrders (m : EdifactMessage) (r : ValidationResult)
    (h : r.is_valid = true ↔ r.errors = []) :
    ((validateOrders m r).is_valid = true ↔ (validateOrders m r).errors = []) := by
  unfold validateOrders
  cases m.get_segment ("BGM".data) 0 with
  | none => exact resInv_add_error _ _ _ _ _
  | some bgm =>
      dsimp only
      split_ifs
      · exact resInv_add_warning _ _ _ _ _ h
      · exact h

/-- `_validate_desadv` preserves the validity invariant. -/
theorem resInv_validateDesadv (m : EdifactMessage) (r : ValidationResult)
    (h : r.is_valid = true ↔ r.errors = []) :
    ((validateDesadv m r).is_valid = true ↔ (validateDesadv m r).errors = []) := by
  unfold validateDesadv
  cases m.get_segment ("BGM".data) 0 with
  | none => exact resInv_add_error _ _ _ _ _
  | some _ => exact h

/-- `_validate_invoic` preserves the validity invariant. -/
theorem resInv_validateInvoic (m : EdifactMessage) (r : ValidationResult)
    (h : r.is_valid = true ↔ r.errors = []) :
    ((validateInvoic m r).is_valid = true ↔ (validateInvoic m r).errors = []) := by
  unfold validateInvoic
  cases m.get_segment ("BGM".data) 0 with
  | none => exact resInv_add_error _ _ _ _ _
  | some bgm =>
      dsimp only
      split_ifs
      · exact resInv_add_error _ _ _ _ _
      · exact h

/-- The EDIFACT per-type dispatch preserves the validity invariant. -/
theorem resInv_validateEdifactByType (m : EdifactMessage) (r : ValidationResult)
    (h : r.is_valid = true ↔ r.errors = []) :
    ((validateEdifactByType m r).is_valid = true ↔ (validateEdifactByType m r).errors = []) := by
  unfold validateEdifactByType
  split_ifs
  · exact resInv_validateOrders m r h
  · exact resInv_validateDesadv m r h
  · exact resInv_validateInvoic m r h
  · exact h

/-- `_validate_edifact_message` preserves the validity invariant on every
non-raising path. -/
theorem resInv_validateEdifactMessage (m : EdifactMessage) (r r' : ValidationResult)
    (h : r.is_valid = true ↔ r.errors = [])
    (hok : validateEdifactMessage m r = .ok r') :
    r'.is_valid = true ↔ r'.errors = [] := by
  have h1 := resInv_checkUNHSegment m r h
  unfold validateEdifactMessage at hok
  cases hunt : m.get_segment ("UNT".data) 0 with
  | none =>
      rw [hunt] at hok
      simp only [Except.ok.injEq] at hok
      rw [← hok]
      exact resInv_validateEdifactByType _ _ (resInv_add_error _ _ _ _ _)
  | some unt =>
      rw [hunt] at hok
      simp only at hok
      split_ifs at hok with hexp
      · simp only [Except.ok.injEq] at hok
        rw [← hok]
        exact resInv_validateEdifactByType _ _ h1
      · cases hint : pyInt? (unt.get_element 1 0 []) with
        | none => rw [hint] at hok; simp at hok
        | some n =>
            rw [hint] at hok
            dsimp only at hok
            split_ifs at hok with hn <;>
              · simp only [Except.ok.injEq] at hok
                rw [← hok]
                first
                  | exact resInv_validateEdifactByType _ _ (resInv_add_warning _ _ _ _ _ h1)
                  | exact resInv_validateEdifactByType _ _ h1

/-- The message loop preserves the validity invariant. -/
theorem resInv_validateEdifactMsgList :
    ∀ (ms : List EdifactMessage) (r r' : ValidationResult),
      (r.is_valid = true ↔ r.errors = []) →
      validateEdifactMsgList ms r = .ok r' →
      (r'.is_valid = true ↔ r'.errors = []) := by
  intro ms
  induction ms with
  | nil =>
      intro r r' h hok
      unfold validateEdifactMsgList at hok
      simp only [Except.ok.injEq] at hok
      rw [← hok]
      exact h
  | cons m rest ih =>
      intro r r' h hok
      unfold validateEdifactMsgList at hok
      cases h1 : validateEdifactMessage m r with
      | error e => rw [h1] at hok; simp [bind, Except.bind] at hok
      | ok r1 =>
          rw [h1] at hok
          simp only [bind, Except.bind] at hok
          exact ih r1 r' (resInv_validateEdifactMessage m r r1 h h1) hok

/-- The UNB block preserves the validity invariant. -/
theorem resInv_checkUNBBlock (env : EdifactEnvelope) (r0 : ValidationResult)
    (h : r0.is_valid = true ↔ r0.errors = []) :
    ((checkUNBBlock env r0).is_valid = true ↔ (checkUNBBlock env r0).errors = []) := by
  unfold checkUNBBlock
  cases env.unb_segment with
  | none => exact resInv_add_error _ _ _ _ _
  | some unb =>
      dsimp only
      split_ifs <;>
        first
          | exact resInv_add_error _ _ _ _ _
          | exact h

/-- The EDIFACT envelope checks preserve the validity invariant. -/
theorem resInv_checkEdifactEnvelope (env : EdifactEnvelope) (r0 : ValidationResult)
    (h : r0.is_valid = true ↔ r0.errors = []) :
    ((checkEdifactEnvelope env r0).is_valid = true ↔
      (checkEdifactEnvelope env r0).errors = []) := by
  unfold checkEdifactEnvelope
  have h1 := resInv_checkUNBBlock env r0 h
  cases env.unz_segment with
  | none => exact resInv_add_warning _ _ _ _ _ h1
  | some _ => exact h1

/-- `_validate_edifact` preserves the validity invariant on every
non-raising path. -/
theorem resInv_validateEdifact (v : EDIValidator) (content : Str)
    (r' : ValidationResult) (v' : EDIValidator)
    (hok : validateEdifact v content = (.ok r', v')) :
    r'.is_valid = true ↔ r'.errors = [] := by
  unfold validateEdifact at hok
  have hinit : ((⟨true, [], []⟩ : ValidationResult).is_valid = true ↔
      (⟨true, [], []⟩ : ValidationResult).errors = []) := by simp
  cases hp : v.edifactParser.parse content with
  | mk res p1 =>
      rw [hp] at hok
      cases res with
      | error e =>
          dsimp only at hok
          have := congrArg Prod.fst hok
          simp only [Except.ok.injEq] at this
          rw [← this]
          exact resInv_add_error _ _ _ _ _
      | ok env =>
          dsimp only at hok
          split_ifs at hok with hemp
          · have := congrArg Prod.fst hok
            simp only [Except.ok.injEq] at this
            rw [← this]
            exact resInv_add_warning _ _ _ _ _ (resInv_checkEdifactEnvelope env _ hinit)
          · have := congrArg Prod.fst hok
            dsimp only at this
            exact resInv_validateEdifactMsgList env.messages _ r'
              (resInv_checkEdifactEnvelope env _ hinit) this

/-- C2: every `ValidationResult` the validator produces satisfies
`is_valid ↔ errors = []`; `add_error` appends its entry to the error list
and always sets the flag to false; `add_warning` appends its entry to the
warning list and changes neither the flag nor the error list. -/
theorem c2_validity_invariant :
    (∀ (v v' : EDIValidator) (content : Str) (edi_type : Option Str) (r : ValidationResult),
        v.validate content edi_type = (Except.ok r, v') →
        (r.is_valid = true ↔ r.errors = [])) ∧
    (∀ (r : ValidationResult) (m : Str) (sg : Option Str) (ps : Option Int) (rl : Option Str),
        (r.add_error m sg ps rl).errors =
          r.errors ++ [⟨ValidationLevel.ERROR, m, sg, ps, rl⟩] ∧
        (r.add_error m sg ps rl).is_valid = false ∧
        (r.add_error m sg ps rl).warnings = r.warnings ∧
        (r.add_warning m sg ps rl).warnings =
          r.warnings ++ [⟨ValidationLevel.WARNING, m, sg, ps, rl⟩] ∧
        (r.add_warning m sg ps rl).is_valid = r.is_valid ∧
        (r.add_warning m sg ps rl).errors = r.errors) := by
  constructor
  · intro v v' content edi_type r hok
    unfold EDIValidator.validate at hok
    split_ifs at hok with hemp
    · have := congrArg Prod.fst hok
      simp only [Except.ok.injEq] at this
      rw [← this]
      exact resInv_add_error _ _ _ _ _
    · dsimp only at hok
      split_ifs at hok with hx12 hedi
      · exact resInv_validateX12 v content r v' hok
      · exact resInv_validateEdifact v content r v' hok
      · have := congrArg Prod.fst hok
        simp only [Except.ok.injEq] at this
        rw [← this]
        exact resInv_add_error _ _ _ _ _
  · intro r m sg ps rl
    refine ⟨rfl, rfl, rfl, rfl, rfl, rfl⟩

/-- Witness for C2 at the empty input: the produced result has
`is_valid = false` and a non-empty error list, satisfying the
equivalence. -/
theorem c2_witness :
    ((⟨false, [⟨ValidationLevel.ERROR, ("Empty EDI content").data, none, none, none⟩], []⟩ :
        ValidationResult).is_valid = true ↔
      (⟨false, [⟨ValidationLevel.ERROR, ("Empty EDI content").data, none, none, none⟩], []⟩ :
        ValidationResult).errors = []) :=
  c2_validity_invariant.1 EDIValidator.init EDIValidator.init ("").data none _ rfl
